import Mathlib

/-!
# Verification of the container execution and lifecycle core (unity-builder)

Shallow embedding of `src/model/docker.ts` and `src/model/action.ts`.

Modelling conventions:
* `String` values model JS strings; machine I/O is made explicit.
* The filesystem is a pair of association lists (files with contents, plus a
  set of directories); `existsSync`, `readFileSync`, `mkdirSync`, `rmSync`
  become pure functions on it.
* The process-execution primitive (`@actions/exec`, an external collaborator
  outside this repository's core) is modelled from the spec: it is an oracle
  that, for a given call, either ran the process and produced an exit code
  (never raising for a non-zero code) or failed catastrophically to launch.
* `ImageEnvironmentFactory.getEnvVarString` (external collaborator) is
  modelled from the spec: an opaque function producing a shell-ready string
  fragment, passed in as a parameter.
* A JS template literal is embedded as a list of chunks, each either literal
  text (`Chunk.lit`) or an interpolated value (`Chunk.var`); rendering
  concatenates them in order, which is exactly template-literal semantics.
  The `\` line continuations of the source template remove the backslash and
  the newline but keep the 12 leading spaces of the following line, so each
  source line contributes `"            <text> "`.
-/

/-- JS string whitespace relevant to `String.prototype.trim` on ASCII input:
space, tab, line feed, carriage return, vertical tab, form feed. -/
def jsWhitespace (c : Char) : Bool :=
  c = ' ' || c = '\t' || c = '\n' || c = '\r' || c = '\x0b' || c = '\x0c'

/-- JS `String.prototype.trim`: removes leading and trailing whitespace. -/
def jsTrim (s : String) : String :=
  ⟨((s.data.dropWhile jsWhitespace).reverse.dropWhile jsWhitespace).reverse⟩

/-- Modelled from the spec: the claim C1 sentence describes the id as the file
content with only *trailing* whitespace trimmed ("trailing whitespace-trimmed
on read").  This follows the spec's words, for comparison with the code's
`jsTrim` (which is JS `.trim()`, trimming both ends). -/
def specTrimTrailing (s : String) : String :=
  ⟨(s.data.reverse.dropWhile jsWhitespace).reverse⟩

/-- `node:path`'s `path.join` for two already-normalised segments (no `..`,
`.`, duplicate or trailing separators), which is how the source calls it:
concatenation with a single `/` separator. -/
def pathJoin (a b : String) : String :=
  a ++ "/" ++ b

/-- A filesystem state: regular files with their contents, and directories. -/
structure FS where
  files : List (String × String)
  dirs : List String
deriving DecidableEq

/-- `fs.existsSync`: the path exists as a file or as a directory. -/
def existsSync (fs : FS) (p : String) : Bool :=
  (fs.files.any fun kv => kv.1 == p) || fs.dirs.contains p

/-- `fs.readFileSync(p, 'ascii')`, as a partial read: `some content` when `p`
is a regular file, `none` when it cannot be read as one. -/
def readFileOpt (fs : FS) (p : String) : Option String :=
  (fs.files.find? fun kv => kv.1 == p).map Prod.snd

/-- `fs.mkdirSync p`. -/
def mkdirSync (fs : FS) (p : String) : FS :=
  { fs with dirs := p :: fs.dirs }

/-- `fs.rmSync p` for a regular file. -/
def rmFileSync (fs : FS) (p : String) : FS :=
  { fs with files := fs.files.filter fun kv => !(kv.1 == p) }

/-- `RunnerContext` from `action.ts`. -/
structure RunnerContext where
  runnerTemporaryPath : String
  githubAction : String
deriving DecidableEq

/-- Modelled from the spec: `DockerParameters` lives in `shared-types.ts`,
which is not part of the provided sources.  Fields are those destructured by
`docker.ts` plus the `RunnerContext` fields, with the spec's optional fields
(`sshAgent`, `sshPublicKeysDirectoryPath`, `gitPrivateToken`) as options. -/
structure DockerParameters where
  runnerTemporaryPath : String
  githubAction : String
  workspace : String
  actionFolder : String
  runnerTempPath : String
  sshAgent : Option String
  sshPublicKeysDirectoryPath : Option String
  gitPrivateToken : Option String
  dockerWorkspacePath : String
  dockerCpuLimit : String
  dockerMemoryLimit : String
  dockerIsolationMode : String
deriving DecidableEq

/-- The `RunnerContext` part of a `DockerParameters` (TS structural typing:
`containerIdFilePath` consumes just these two fields). -/
def DockerParameters.runnerContext (p : DockerParameters) : RunnerContext :=
  ⟨p.runnerTemporaryPath, p.githubAction⟩

/-- `StringKeyValuePair` from `shared-types.ts` (modelled from the spec: a
mapping of additional key/value pairs). -/
structure StringKeyValuePair where
  name : String
  value : String
deriving DecidableEq

/-- JS truthiness of a `string | undefined` value: `undefined` and the empty
string are falsy. -/
def optionStringTruthy : Option String → Bool
  | none => false
  | some s => !s.isEmpty

/-- `containerIdFilePath` from `docker.ts`:
`path.join(runnerTemporaryPath, "container_" + githubAction)`. -/
def containerIdFilePath (parameters : RunnerContext) : String :=
  pathJoin parameters.runnerTemporaryPath ("container_" ++ parameters.githubAction)

/-- One call to the process-execution boundary: tool, arguments, silent flag. -/
structure ExecCall where
  tool : String
  args : List String
  silent : Bool
deriving DecidableEq

/-- Modelled from the spec: outcome of the process-execution boundary.  Per
spec section 6 it "never raises for a non-zero exit; raises only for inability
to launch the process at all", so an outcome is an exit code (any integer) or
a catastrophic launch failure. -/
inductive ExecOutcome where
  | exitCode : Int → ExecOutcome
  | launchFailure : ExecOutcome
deriving DecidableEq

/-- Result of `Docker.ensureContainerRemoval`: normal return carrying the
final filesystem and the runtime calls issued in order; a fatal error
propagated from a catastrophic runtime failure (the identity file is then not
deleted); or a read failure on an identity path that is not a regular file. -/
inductive CleanupResult where
  | ok : FS → List ExecCall → CleanupResult
  | fatal : FS → List ExecCall → CleanupResult
  | readError : FS → CleanupResult
deriving DecidableEq

/-- `Docker.ensureContainerRemoval` from `docker.ts`.  `execRun` is the
process-execution oracle.  Mirrors the source: return early when the identity
file is absent; otherwise read and trim the container id, `docker exec` the
cleanup script (non-silent), `docker rm --force --volumes` (silent), and
finally delete the identity file.  A catastrophic failure of either runtime
call propagates before `rmSync` runs. -/
def Docker.ensureContainerRemoval (execRun : ExecCall → ExecOutcome) (fs : FS)
    (parameters : RunnerContext) : CleanupResult :=
  let cidfile := containerIdFilePath parameters
  if existsSync fs cidfile then
    match readFileOpt fs cidfile with
    | none => .readError fs
    | some content =>
      let container := jsTrim content
      let call1 : ExecCall := ⟨"docker", ["exec", container, "/bin/bash", "-c", "/cleanup.sh"], false⟩
      match execRun call1 with
      | .launchFailure => .fatal fs [call1]
      | .exitCode _ =>
        let call2 : ExecCall := ⟨"docker", ["rm", "--force", "--volumes", container], true⟩
        match execRun call2 with
        | .launchFailure => .fatal fs [call1, call2]
        | .exitCode _ => .ok (rmFileSync fs cidfile) [call1, call2]
  else .ok fs []

/-- A chunk of a JS template literal: literal text, or an interpolated value. -/
inductive Chunk where
  | lit : String → Chunk
  | var : String → Chunk
deriving DecidableEq

/-- The text of a chunk. -/
def Chunk.str : Chunk → String
  | .lit s => s
  | .var s => s

/-- Template-literal semantics: concatenate the chunks in order. -/
def renderTemplate : List Chunk → String
  | [] => ""
  | c :: cs => c.str ++ renderTemplate cs

/-- `gitPrivateToken ? `--env GIT_PRIVATE_TOKEN="${gitPrivateToken}"` : ''`. -/
def gitTokenChunks : Option String → List Chunk
  | some tok => if tok.isEmpty then [] else
      [.lit "--env GIT_PRIVATE_TOKEN=\"", .var tok, .lit "\""]
  | none => []

/-- `sshAgent ? '--env SSH_AUTH_SOCK=/ssh-agent' : ''`. -/
def sshAgentEnvChunks : Option String → List Chunk
  | some agent => if agent.isEmpty then [] else [.lit "--env SSH_AUTH_SOCK=/ssh-agent"]
  | none => []

/-- `sshAgent ? `--volume ${sshAgent}:/ssh-agent` : ''`. -/
def sshAgentVolumeChunks : Option String → List Chunk
  | some agent => if agent.isEmpty then [] else [.lit "--volume ", .var agent, .lit ":/ssh-agent"]
  | none => []

/-- `sshAgent && !sshPublicKeysDirectoryPath ? '--volume /home/runner/.ssh/known_hosts:/root/.ssh/known_hosts:ro' : ''`. -/
def knownHostsChunks (sshAgent sshPublicKeysDirectoryPath : Option String) : List Chunk :=
  if optionStringTruthy sshAgent && !optionStringTruthy sshPublicKeysDirectoryPath then
    [.lit "--volume /home/runner/.ssh/known_hosts:/root/.ssh/known_hosts:ro"]
  else []

/-- `sshPublicKeysDirectoryPath ? `--volume ${sshPublicKeysDirectoryPath}:/root/.ssh:ro` : ''`. -/
def publicKeysChunks : Option String → List Chunk
  | some d => if d.isEmpty then [] else [.lit "--volume ", .var d, .lit ":/root/.ssh:ro"]
  | none => []

/-- The in-container shell chosen by `getLinuxCommand`:
`image === 'alpine' ? '/bin/sh' : '/bin/bash'`. -/
def commandPrefixFor (image : String) : String :=
  if image = "alpine" then "/bin/sh" else "/bin/bash"

/-- `entrypointBash ? `--entrypoint ${commandPrefix}` : ''`. -/
def entrypointChunks (entrypointBash : Bool) (commandPrefix : String) : List Chunk :=
  if entrypointBash then [.lit ("--entrypoint " ++ commandPrefix)] else []

/-- `entrypointBash ? `-c` : `${commandPrefix} -c``. -/
def shellInvocationChunks (entrypointBash : Bool) (commandPrefix : String) : List Chunk :=
  if entrypointBash then [.lit "-c"] else [.lit (commandPrefix ++ " -c")]

/-- The tail of the Linux template (source lines: entrypoint override, image,
`-c` invocation, and the quoted in-container command). -/
def linuxTailChunks (image : String) (overrideCommands : String)
    (entrypointBash : Bool) : List Chunk :=
  [Chunk.lit "            "] ++ entrypointChunks entrypointBash (commandPrefixFor image) ++
  [Chunk.lit " ", Chunk.lit "            ", Chunk.var image, Chunk.lit " ",
   Chunk.lit "            "] ++ shellInvocationChunks entrypointBash (commandPrefixFor image) ++
  [Chunk.lit " ", Chunk.lit "            \"",
   Chunk.var (if overrideCommands ≠ "" then overrideCommands else "/entrypoint.sh"),
   Chunk.lit "\""]

/-- The Linux `docker run` template of `Docker.getLinuxCommand`, chunk by
chunk in source order.  Each source line contributes its 12 leading spaces, its
text, and the trailing space left by the `\` continuation.  The computed
interpolations are decomposed: `${cidfile}` into
`runnerTemporaryPath ++ "/container_" ++ githubAction` (see
`containerIdFilePath_renderTemplate`), and `${githubHome}`/`${githubWorkflow}`
into `runnerTempPath ++ "/_github_home"` (resp. `"/_github_workflow"`). -/
def linuxMainChunks (envVarString : String) (p : DockerParameters) : List Chunk :=
  [Chunk.lit "docker run ",
   Chunk.lit "            --workdir ", Chunk.var p.dockerWorkspacePath, Chunk.lit " ",
   Chunk.lit "            --cidfile=", Chunk.var p.runnerTemporaryPath,
     Chunk.lit "/container_", Chunk.var p.githubAction, Chunk.lit " ",
   Chunk.lit "            --rm ",
   Chunk.lit "            ", Chunk.var envVarString, Chunk.lit " ",
   Chunk.lit "            --env GITHUB_WORKSPACE=", Chunk.var p.dockerWorkspacePath, Chunk.lit " ",
   Chunk.lit "            --env GIT_CONFIG_EXTENSIONS ",
   Chunk.lit "            "] ++ gitTokenChunks p.gitPrivateToken ++ [Chunk.lit " ",
   Chunk.lit "            "] ++ sshAgentEnvChunks p.sshAgent ++ [Chunk.lit " ",
   Chunk.lit "            --volume \"", Chunk.var p.runnerTempPath,
     Chunk.lit "/_github_home\":\"/root:z\" ",
   Chunk.lit "            --volume \"", Chunk.var p.runnerTempPath,
     Chunk.lit "/_github_workflow\":\"/github/workflow:z\" ",
   Chunk.lit "            --volume \"", Chunk.var p.workspace, Chunk.lit "\":\"",
     Chunk.var p.dockerWorkspacePath, Chunk.lit ":z\" ",
   Chunk.lit "            --volume \"", Chunk.var p.actionFolder,
     Chunk.lit "/default-build-script:/UnityBuilderAction:z\" ",
   Chunk.lit "            --volume \"", Chunk.var p.actionFolder,
     Chunk.lit "/platforms/ubuntu/steps:/steps:z\" ",
   Chunk.lit "            --volume \"", Chunk.var p.actionFolder,
     Chunk.lit "/platforms/ubuntu/entrypoint.sh:/entrypoint.sh:z\" ",
   Chunk.lit "            --volume \"", Chunk.var p.actionFolder,
     Chunk.lit "/unity-config:/usr/share/unity3d/config/:z\" ",
   Chunk.lit "            --volume \"", Chunk.var p.actionFolder,
     Chunk.lit "/BlankProject\":\"/BlankProject:z\" ",
   Chunk.lit "            --cpus=", Chunk.var p.dockerCpuLimit, Chunk.lit " ",
   Chunk.lit "            --memory=", Chunk.var p.dockerMemoryLimit, Chunk.lit " ",
   Chunk.lit "            "] ++ sshAgentVolumeChunks p.sshAgent ++ [Chunk.lit " ",
   Chunk.lit "            "] ++
     knownHostsChunks p.sshAgent p.sshPublicKeysDirectoryPath ++ [Chunk.lit " ",
   Chunk.lit "            "] ++ publicKeysChunks p.sshPublicKeysDirectoryPath ++
  [Chunk.lit " "]

/-- The full Linux template: the main part followed by the tail. -/
def linuxRunChunks (envVarString : String) (image : String) (p : DockerParameters)
    (overrideCommands : String) (entrypointBash : Bool) : List Chunk :=
  linuxMainChunks envVarString p ++ linuxTailChunks image overrideCommands entrypointBash

/-- `Docker.getLinuxCommand` from `docker.ts`.  `envVarString` is the opaque
fragment produced by the external `ImageEnvironmentFactory.getEnvVarString`
collaborator (modelled from the spec).  Ensures the two auxiliary host
directories exist (create-if-absent), then returns the command string. -/
def Docker.getLinuxCommand (envVarString : String) (fs : FS) (image : String)
    (parameters : DockerParameters) (overrideCommands : String)
    (entrypointBash : Bool) : FS × String :=
  let githubHome := pathJoin parameters.runnerTempPath "_github_home"
  let fs1 := if existsSync fs githubHome then fs else mkdirSync fs githubHome
  let githubWorkflow := pathJoin parameters.runnerTempPath "_github_workflow"
  let fs2 := if existsSync fs1 githubWorkflow then fs1 else mkdirSync fs1 githubWorkflow
  (fs2, renderTemplate (linuxRunChunks envVarString image parameters overrideCommands entrypointBash))

/-- The Windows `docker run` template of `Docker.getWindowsCommand`, chunk by
chunk in source order. -/
def windowsRunChunks (envVarString : String) (image : String)
    (p : DockerParameters) : List Chunk :=
  [Chunk.lit "docker run ",
   Chunk.lit "            --workdir c:", Chunk.var p.dockerWorkspacePath, Chunk.lit " ",
   Chunk.lit "            --rm ",
   Chunk.lit "            ", Chunk.var envVarString, Chunk.lit " ",
   Chunk.lit "            --env GITHUB_WORKSPACE=c:", Chunk.var p.dockerWorkspacePath, Chunk.lit " ",
   Chunk.lit "            "] ++ gitTokenChunks p.gitPrivateToken ++ [Chunk.lit " ",
   Chunk.lit "            --volume \"", Chunk.var p.workspace, Chunk.lit "\":\"c:",
     Chunk.var p.dockerWorkspacePath, Chunk.lit "\" ",
   Chunk.lit "            --volume \"c:/regkeys\":\"c:/regkeys\" ",
   Chunk.lit "            --volume \"C:/Program Files/Microsoft Visual Studio\":\"C:/Program Files/Microsoft Visual Studio\" ",
   Chunk.lit "            --volume \"C:/Program Files (x86)/Microsoft Visual Studio\":\"C:/Program Files (x86)/Microsoft Visual Studio\" ",
   Chunk.lit "            --volume \"C:/Program Files (x86)/Windows Kits\":\"C:/Program Files (x86)/Windows Kits\" ",
   Chunk.lit "            --volume \"C:/ProgramData/Microsoft/VisualStudio\":\"C:/ProgramData/Microsoft/VisualStudio\" ",
   Chunk.lit "            --volume \"", Chunk.var p.actionFolder,
     Chunk.lit "/default-build-script\":\"c:/UnityBuilderAction\" ",
   Chunk.lit "            --volume \"", Chunk.var p.actionFolder,
     Chunk.lit "/platforms/windows\":\"c:/steps\" ",
   Chunk.lit "            --volume \"", Chunk.var p.actionFolder,
     Chunk.lit "/unity-config\":\"C:/ProgramData/Unity/config\" ",
   Chunk.lit "            --volume \"", Chunk.var p.actionFolder,
     Chunk.lit "/BlankProject\":\"c:/BlankProject\" ",
   Chunk.lit "            --cpus=", Chunk.var p.dockerCpuLimit, Chunk.lit " ",
   Chunk.lit "            --memory=", Chunk.var p.dockerMemoryLimit, Chunk.lit " ",
   Chunk.lit "            --isolation=", Chunk.var p.dockerIsolationMode, Chunk.lit " ",
   Chunk.lit "            ", Chunk.var image, Chunk.lit " ",
   Chunk.lit "            powershell c:/steps/entrypoint.ps1"]

/-- `Docker.getWindowsCommand` from `docker.ts`. -/
def Docker.getWindowsCommand (envVarString : String) (image : String)
    (parameters : DockerParameters) : String :=
  renderTemplate (windowsRunChunks envVarString image parameters)

/-- Options handed to the process-execution boundary by `Docker.run`. -/
structure ExecOptions where
  silent : Bool
  ignoreReturnCode : Bool
deriving DecidableEq

/-- `Docker.run` from `docker.ts`.  `execCommand` is the process-execution
oracle (modelled from the spec: with `ignoreReturnCode` it returns the child's
exit code and never raises for a non-zero code); `envVarString` abstracts the
external environment-fragment collaborator, applied to the parameters and the
additional variables.  Dispatches on the host platform, raising for an
unsupported one before any command is built; otherwise sets the options'
`silent` and `ignoreReturnCode` fields and returns the exit code unmodified. -/
def Docker.run (platform : String)
    (execCommand : String → ExecOptions → Int)
    (envVarString : DockerParameters → List StringKeyValuePair → String)
    (fs : FS) (image : String) (parameters : DockerParameters) (silent : Bool)
    (overrideCommands : String) (additionalVariables : List StringKeyValuePair)
    (options : ExecOptions) (entrypointBash : Bool) : FS × Except String Int :=
  if platform = "linux" then
    let r := Docker.getLinuxCommand (envVarString parameters additionalVariables) fs image
      parameters overrideCommands entrypointBash
    (r.1, .ok (execCommand r.2 { options with silent := silent, ignoreReturnCode := true }))
  else if platform = "win32" then
    (fs, .ok (execCommand (Docker.getWindowsCommand (envVarString parameters []) image parameters)
      { options with silent := silent, ignoreReturnCode := true }))
  else
    (fs, .error ("Operation system, " ++ platform ++ ", is not supported yet."))

/-- `Action.supportedPlatforms` from `action.ts`. -/
def Action.supportedPlatforms : List String :=
  ["linux", "win32", "darwin"]

/-- `Action.checkCompatibility` from `action.ts`: raises iff the current
platform is not in `supportedPlatforms`. -/
def Action.checkCompatibility (currentPlatform : String) : Except String Unit :=
  if Action.supportedPlatforms.contains currentPlatform then .ok ()
  else .error ("Currently " ++ currentPlatform ++ "-platform is not supported")

/-! ## Occurrence analysis for rendered templates

`occursIn needle s` states that `needle` occurs as a contiguous substring of
`s`.  For a rendered template, an occurrence of a needle either lies inside a
single chunk or crosses a chunk boundary; `litGuard` bundles the decidable
side conditions on literal chunks that rule out every crossing, so that
non-occurrence in the whole command reduces to non-occurrence in each
interpolated value. -/
/-- `needle` occurs as a contiguous substring of `s`. -/
def occursIn (needle s : String) : Prop := needle.data <:+: s.data

instance (needle s : String) : Decidable (occursIn needle s) := by
  unfold occursIn; infer_instance

/-- Whether a chunk is an interpolated value. -/
def Chunk.isVar : Chunk → Bool
  | .lit _ => false
  | .var _ => true

/-- The literal texts of a template, in order. -/
def templateLits : List Chunk → List String
  | [] => []
  | .lit s :: cs => s :: templateLits cs
  | .var _ :: cs => templateLits cs

/-- The interpolated values of a template, in order. -/
def templateVars : List Chunk → List String
  | [] => []
  | .lit _ :: cs => templateVars cs
  | .var s :: cs => s :: templateVars cs

/-- No two interpolated values are adjacent (some literal text separates any
two of them); true of every template produced by the command builders. -/
def noAdjacentVars : List Chunk → Bool
  | c1 :: c2 :: cs => (!(c1.isVar && c2.isVar)) && noAdjacentVars (c2 :: cs)
  | _ => true

/-- No proper nonempty prefix of the needle `n` is a suffix of the literal
`L`, and no proper nonempty suffix of `n` is a prefix of `L`: an occurrence of
`n` can neither start inside `L` and continue past its end, nor start earlier
and end inside `L`. -/
def splitsBlocked (n L : List Char) : Bool :=
  (List.range n.length).all fun k =>
    k == 0 || (!((n.take k).isSuffixOf L) && !((n.drop k).isPrefixOf L))

/-- Side conditions on a literal chunk `L` that block any occurrence of the
needle `n` touching `L`: `n` does not occur inside `L`, `L` is not swallowed
whole by an occurrence of `n`, and no occurrence can cross either end of
`L`. -/
def litGuard (n L : List Char) : Bool :=
  !(decide (n <:+: L)) && !(decide (L <:+: n)) && splitsBlocked n L

/-! ## Sample inputs used by witnesses -/
/-- A concrete parameter set used by witness theorems. -/
def sampleParams : DockerParameters :=
  ⟨"/rt", "ga1", "/ws", "/af", "/tp", none, none, none, "/dwp", "2", "4g", "process"⟩

/-- An empty filesystem used by witness theorems. -/
def sampleFS : FS := ⟨[], []⟩

/-! ## Literal supersets of the Linux and Windows templates

Used to discharge the `litGuard` conditions once per needle: every literal
chunk of a (resolved) template is in the relevant superset. -/
/-- Literal chunks always present in the Linux template, plus the shell
invocation variants. -/
def linuxLitsCore : List String :=
  ["docker run ", "            --workdir ", " ", "            --cidfile=", "/container_",
   "            --rm ", "            ", "            --env GITHUB_WORKSPACE=",
   "            --env GIT_CONFIG_EXTENSIONS ",
   "            --volume \"", "/_github_home\":\"/root:z\" ",
   "/_github_workflow\":\"/github/workflow:z\" ",
   "\":\"", ":z\" ",
   "/default-build-script:/UnityBuilderAction:z\" ",
   "/platforms/ubuntu/steps:/steps:z\" ",
   "/platforms/ubuntu/entrypoint.sh:/entrypoint.sh:z\" ",
   "/unity-config:/usr/share/unity3d/config/:z\" ",
   "/BlankProject\":\"/BlankProject:z\" ",
   "            --cpus=", "            --memory=",
   "-c", "/bin/sh -c", "/bin/bash -c",
   "            \"", "\""]

/-- Literal chunks of the private-token fragment. -/
def tokenLits : List String := ["--env GIT_PRIVATE_TOKEN=\"", "\""]

/-- Literal chunks of the SSH-agent fragments (environment and socket mount). -/
def sshAgentLits : List String :=
  ["--env SSH_AUTH_SOCK=/ssh-agent", "--volume ", ":/ssh-agent"]

/-- The known-hosts fallback mount literal. -/
def knownHostsLits : List String :=
  ["--volume /home/runner/.ssh/known_hosts:/root/.ssh/known_hosts:ro"]

/-- Literal chunks of the public-keys mount fragment. -/
def publicKeysLits : List String := ["--volume ", ":/root/.ssh:ro"]

/-- The entrypoint-override literals (both shells). -/
def entrypointLits : List String := ["--entrypoint /bin/sh", "--entrypoint /bin/bash"]

/-- Literal chunks always present in the Windows template. -/
def windowsLitsCore : List String :=
  ["docker run ", "            --workdir c:", " ", "            --rm ",
   "            ", "            --env GITHUB_WORKSPACE=c:",
   "            --volume \"", "\":\"c:", "\" ",
   "            --volume \"c:/regkeys\":\"c:/regkeys\" ",
   "            --volume \"C:/Program Files/Microsoft Visual Studio\":\"C:/Program Files/Microsoft Visual Studio\" ",
   "            --volume \"C:/Program Files (x86)/Microsoft Visual Studio\":\"C:/Program Files (x86)/Microsoft Visual Studio\" ",
   "            --volume \"C:/Program Files (x86)/Windows Kits\":\"C:/Program Files (x86)/Windows Kits\" ",
   "            --volume \"C:/ProgramData/Microsoft/VisualStudio\":\"C:/ProgramData/Microsoft/VisualStudio\" ",
   "/default-build-script\":\"c:/UnityBuilderAction\" ",
   "/platforms/windows\":\"c:/steps\" ",
   "/unity-config\":\"C:/ProgramData/Unity/config\" ",
   "/BlankProject\":\"c:/BlankProject\" ",
   "            --cpus=", "            --memory=", "            --isolation=",
   "            powershell c:/steps/entrypoint.ps1"]

/-- Whether a template's first chunk, if any, is literal text. -/
def litLed : List Chunk → Bool
  | Chunk.var _ :: _ => false
  | _ => true

/-- Superset of the Linux literal chunks when both SSH options are falsy. -/
def linuxLitsNoSSH : List String := linuxLitsCore ++ tokenLits ++ entrypointLits

/-- Superset when the SSH agent is set and the public-keys directory is not. -/
def linuxLitsKnownHosts : List String :=
  linuxLitsCore ++ tokenLits ++ sshAgentLits ++ knownHostsLits ++ entrypointLits

/-- Superset when both the SSH agent and the public-keys directory are set. -/
def linuxLitsPublicKeys : List String :=
  linuxLitsCore ++ tokenLits ++ sshAgentLits ++ publicKeysLits ++ entrypointLits

/-- Superset when the private token is falsy (SSH options arbitrary). -/
def linuxLitsNoToken : List String :=
  linuxLitsCore ++ sshAgentLits ++ knownHostsLits ++ publicKeysLits ++ entrypointLits

/-- Superset when no entrypoint override is requested. -/
def linuxLitsNoEntrypoint : List String :=
  linuxLitsCore ++ tokenLits ++ sshAgentLits ++ knownHostsLits ++ publicKeysLits

/-- The shell-invocation literals. -/
def shellLits : List String := ["-c", "/bin/sh -c", "/bin/bash -c"]

/-! ## Needle guards: once-per-needle decidable checks over the supersets -/
/-- The SSH-related needles of claim C6's first case. -/
def sshNeedles : List String := ["SSH_AUTH_SOCK", "/ssh-agent", "known_hosts", ".ssh"]

theorem infix_append_cases {α : Type} {n u v : List α} (h : n <:+: u ++ v) :
    n <:+: u ∨ n <:+: v ∨
      ∃ n1 n2, n = n1 ++ n2 ∧ n1 ≠ [] ∧ n2 ≠ [] ∧ n1 <:+ u ∧ n2 <+: v := by
  obtain ⟨s, t, hst⟩ := h
  rcases List.append_eq_append_iff.mp hst with ⟨w, hu, ht⟩ | ⟨w, hsn, hv⟩
  · exact Or.inl ⟨s, w, by rw [hu]⟩
  · rcases List.append_eq_append_iff.mp hsn with ⟨y, hu2, hn⟩ | ⟨y, hs2, hw⟩
    · rcases eq_or_ne y [] with rfl | hy
      · refine Or.inr (Or.inl ?_)
        have : n <+: v := ⟨t, by rw [hv, hn]; simp⟩
        exact this.isInfix
      · rcases eq_or_ne w [] with rfl | hw'
        · refine Or.inl ?_
          have hyu : y <:+ u := ⟨s, hu2.symm⟩
          have : n <:+ u := by
            rw [hn]; simpa using hyu
          exact this.isInfix
        · refine Or.inr (Or.inr ⟨y, w, hn, hy, hw', ?_, ?_⟩)
          · exact ⟨s, hu2.symm⟩
          · exact ⟨t, hv.symm⟩
    · refine Or.inr (Or.inl ?_)
      exact ⟨y, t, by rw [hv, hw]⟩

theorem prefix_append_cases {α : Type} {x u v : List α} (h : x <+: u ++ v) :
    x <+: u ∨ u <+: x := by
  obtain ⟨t, ht⟩ := h
  rcases List.append_eq_append_iff.mp ht.symm with ⟨k, hk1, hk2⟩ | ⟨k, hk1, hk2⟩
  · exact Or.inr ⟨k, hk1.symm⟩
  · exact Or.inl ⟨k, hk1.symm⟩

theorem noAdjacentVars_tail {c : Chunk} {cs : List Chunk}
    (h : noAdjacentVars (c :: cs) = true) : noAdjacentVars cs = true := by
  cases cs with
  | nil => rfl
  | cons d ds =>
    simp only [noAdjacentVars, Bool.and_eq_true] at h
    exact h.2

theorem templateLits_subset {c : Chunk} {cs : List Chunk} {s : String}
    (h : s ∈ templateLits cs) : s ∈ templateLits (c :: cs) := by
  cases c with
  | lit t => simp [templateLits, h]
  | var t => simpa [templateLits] using h

theorem templateVars_subset {c : Chunk} {cs : List Chunk} {s : String}
    (h : s ∈ templateVars cs) : s ∈ templateVars (c :: cs) := by
  cases c with
  | lit t => simpa [templateVars] using h
  | var t => simp [templateVars, h]

theorem data_ne_nil_of_ne_empty {n : String} (h : n ≠ "") : n.data ≠ [] := by
  intro hd
  apply h
  cases n with
  | mk l => cases hd; rfl

theorem renderTemplate_not_occursIn (n : String) (cs : List Chunk)
    (hn : n ≠ "")
    (hsep : noAdjacentVars cs = true)
    (hlits : ∀ s ∈ templateLits cs, litGuard n.data s.data = true)
    (hvars : ∀ s ∈ templateVars cs, ¬ occursIn n s) :
    ¬ occursIn n (renderTemplate cs) := by
  have hnd : n.data ≠ [] := data_ne_nil_of_ne_empty hn
  induction cs with
  | nil =>
    intro h
    exact hnd (List.eq_nil_of_infix_nil h)
  | cons c cs ih =>
    intro hocc
    have hocc2 : n.data <:+: c.str.data ++ (renderTemplate cs).data := by
      simpa [occursIn, renderTemplate, String.data_append] using hocc
    have ihx : ¬ occursIn n (renderTemplate cs) :=
      ih (noAdjacentVars_tail hsep)
        (fun s hs => hlits s (templateLits_subset hs))
        (fun s hs => hvars s (templateVars_subset hs))
    rcases infix_append_cases hocc2 with hin | hin | ⟨n1, n2, hn12, hn1, hn2, hsuf, hpre⟩
    · cases c with
      | lit s =>
        have hg := hlits s (by simp [templateLits])
        simp only [litGuard, Bool.and_eq_true, Bool.not_eq_true', decide_eq_false_iff_not] at hg
        exact hg.1.1 hin
      | var s => exact hvars s (by simp [templateVars]) hin
    · exact ihx hin
    · cases c with
      | lit s =>
        have hg := hlits s (by simp [templateLits])
        simp only [litGuard, Bool.and_eq_true, Bool.not_eq_true', decide_eq_false_iff_not] at hg
        have hsb := hg.2
        have hk1 : n.data.take n1.length = n1 := by rw [hn12]; exact List.take_left _ _
        have hklt : n1.length < n.data.length := by
          rw [hn12, List.length_append]
          have : 0 < n2.length := List.length_pos.mpr hn2
          omega
        have := (List.all_eq_true.mp hsb) n1.length (List.mem_range.mpr hklt)
        simp only [Bool.or_eq_true, Bool.and_eq_true, Bool.not_eq_true', beq_iff_eq] at this
        rcases this with h0 | ⟨hsufb, _⟩
        · exact hn1 (by simpa [h0] using hk1.symm)
        · have hh : n1 <:+ s.data := hsuf
          rw [hk1, List.isSuffixOf_iff_suffix.mpr hh] at hsufb
          exact Bool.noConfusion hsufb
      | var s =>
        cases cs with
        | nil =>
          have : n2 = [] := List.prefix_nil.mp (by simpa [renderTemplate] using hpre)
          exact hn2 this
        | cons d ds =>
          cases d with
          | var t =>
            simp [noAdjacentVars, Chunk.isVar] at hsep
          | lit t =>
            have hpre2 : n2 <+: t.data ++ (renderTemplate ds).data := by
              simpa [renderTemplate, String.data_append] using hpre
            have hg := hlits t (by simp [templateLits])
            simp only [litGuard, Bool.and_eq_true, Bool.not_eq_true', decide_eq_false_iff_not] at hg
            rcases prefix_append_cases hpre2 with hp | hp
            · have hk2 : n.data.drop n1.length = n2 := by rw [hn12]; exact List.drop_left _ _
              have hklt : n1.length < n.data.length := by
                rw [hn12, List.length_append]
                have : 0 < n2.length := List.length_pos.mpr hn2
                omega
              have hall := (List.all_eq_true.mp hg.2) n1.length (List.mem_range.mpr hklt)
              simp only [Bool.or_eq_true, Bool.and_eq_true, Bool.not_eq_true', beq_iff_eq] at hall
              rcases hall with h0 | ⟨_, hpreb⟩
              · have : n1.length = 0 := h0
                exact hn1 (List.eq_nil_of_length_eq_zero this)
              · rw [hk2, List.isPrefixOf_iff_prefix.mpr hp] at hpreb
                exact Bool.noConfusion hpreb
            · have : t.data <:+: n.data :=
                List.infix_iff_prefix_suffix.mpr ⟨n2, hp, by rw [hn12]; exact List.suffix_append _ _⟩
              exact hg.1.2 this

theorem occursIn_renderTemplate_of_mem {n : String} {c : Chunk} {cs : List Chunk}
    (hc : c ∈ cs) (h : occursIn n c.str) : occursIn n (renderTemplate cs) := by
  induction cs with
  | nil => cases hc
  | cons d ds ih =>
    rcases List.mem_cons.mp hc with rfl | hc2
    · refine List.IsInfix.trans h ⟨[], (renderTemplate ds).data, ?_⟩
      simp [renderTemplate, String.data_append]
    · refine List.IsInfix.trans (ih hc2) ⟨d.str.data, [], ?_⟩
      simp [renderTemplate, String.data_append]

theorem renderTemplate_append (xs ys : List Chunk) :
    renderTemplate (xs ++ ys) = renderTemplate xs ++ renderTemplate ys := by
  induction xs with
  | nil =>
    apply String.ext
    simp [renderTemplate, String.data_append]
  | cons c cs ih =>
    apply String.ext
    simp [renderTemplate, String.data_append, ih]

/-- If a path reads as a file, `existsSync` is true for it. -/
theorem existsSync_of_readFileOpt {fs : FS} {p : String} {c : String}
    (h : readFileOpt fs p = some c) : existsSync fs p = true := by
  simp only [readFileOpt, Option.map_eq_some'] at h
  obtain ⟨kv, hfind, -⟩ := h
  have hmem := List.mem_of_find?_eq_some hfind
  have hp := List.find?_some hfind
  simp only [existsSync, Bool.or_eq_true, List.any_eq_true]
  exact Or.inl ⟨kv, hmem, hp⟩

/-- After `rmFileSync fs p`, the path `p` no longer exists, provided it is not
also a directory. -/
theorem existsSync_rmFileSync_self {fs : FS} {p : String}
    (hdir : fs.dirs.contains p = false) :
    existsSync (rmFileSync fs p) p = false := by
  have hany : ((fs.files.filter fun kv => !(kv.1 == p)).any fun kv => kv.1 == p) = false := by
    rw [Bool.eq_false_iff]
    intro h
    rw [List.any_eq_true] at h
    obtain ⟨kv, hmem, hp⟩ := h
    have h2 := (List.mem_filter.mp hmem).2
    rw [hp] at h2
    exact Bool.noConfusion h2
  simp only [existsSync, rmFileSync, Bool.or_eq_false_iff]
  exact ⟨hany, hdir⟩

/-- Claim C3: with no identity file, `ensureContainerRemoval` performs zero
runtime calls and returns without error; after a successful reap the identity
file is gone, so an immediately repeated call is a no-op. -/
theorem ensureContainerRemoval_absent_noop_idempotent
    (execRun : ExecCall → ExecOutcome) (fs : FS) (ctx : RunnerContext) :
    (existsSync fs (containerIdFilePath ctx) = false →
      Docker.ensureContainerRemoval execRun fs ctx = .ok fs []) ∧
    (∀ content : String, ∀ c1 c2 : Int,
      readFileOpt fs (containerIdFilePath ctx) = some content →
      fs.dirs.contains (containerIdFilePath ctx) = false →
      execRun ⟨"docker", ["exec", jsTrim content, "/bin/bash", "-c", "/cleanup.sh"], false⟩ = .exitCode c1 →
      execRun ⟨"docker", ["rm", "--force", "--volumes", jsTrim content], true⟩ = .exitCode c2 →
      Docker.ensureContainerRemoval execRun fs ctx =
        .ok (rmFileSync fs (containerIdFilePath ctx))
          [⟨"docker", ["exec", jsTrim content, "/bin/bash", "-c", "/cleanup.sh"], false⟩,
           ⟨"docker", ["rm", "--force", "--volumes", jsTrim content], true⟩] ∧
      Docker.ensureContainerRemoval execRun (rmFileSync fs (containerIdFilePath ctx)) ctx =
        .ok (rmFileSync fs (containerIdFilePath ctx)) []) := by
  constructor
  · intro habs
    simp [Docker.ensureContainerRemoval, habs]
  · intro content c1 c2 hread hdir h1 h2
    have hex := existsSync_of_readFileOpt hread
    constructor
    · simp [Docker.ensureContainerRemoval, hex, hread, h1, h2]
    · simp [Docker.ensureContainerRemoval, existsSync_rmFileSync_self hdir]

/-- Witness for `ensureContainerRemoval_absent_noop_idempotent`. -/
theorem ensureContainerRemoval_absent_noop_idempotent_witness :
    Docker.ensureContainerRemoval (fun _ => .exitCode 0) sampleFS ⟨"/tmp", "run1"⟩ =
      .ok sampleFS [] ∧
    (Docker.ensureContainerRemoval (fun _ => .exitCode 0)
        ⟨[("/tmp/container_run1", "abc123\n")], []⟩ ⟨"/tmp", "run1"⟩ =
      .ok (rmFileSync ⟨[("/tmp/container_run1", "abc123\n")], []⟩ "/tmp/container_run1")
        [⟨"docker", ["exec", "abc123", "/bin/bash", "-c", "/cleanup.sh"], false⟩,
         ⟨"docker", ["rm", "--force", "--volumes", "abc123"], true⟩] ∧
     Docker.ensureContainerRemoval (fun _ => .exitCode 0)
        (rmFileSync ⟨[("/tmp/container_run1", "abc123\n")], []⟩ "/tmp/container_run1") ⟨"/tmp", "run1"⟩ =
      .ok (rmFileSync ⟨[("/tmp/container_run1", "abc123\n")], []⟩ "/tmp/container_run1") []) := by
  constructor
  · exact (ensureContainerRemoval_absent_noop_idempotent (fun _ => .exitCode 0) sampleFS ⟨"/tmp", "run1"⟩).1 (by decide)
  · have h := (ensureContainerRemoval_absent_noop_idempotent (fun _ => .exitCode 0)
      ⟨[("/tmp/container_run1", "abc123\n")], []⟩ ⟨"/tmp", "run1"⟩).2 "abc123\n" 0 0
      (by decide) (by decide) (by decide) (by decide)
    have hcid : containerIdFilePath ⟨"/tmp", "run1"⟩ = "/tmp/container_run1" := by decide
    have htrim : jsTrim "abc123\n" = "abc123" := by decide
    rw [hcid, htrim] at h
    exact h

/-- Claim C1 (amended): with an existing identity file, `ensureContainerRemoval`
reads its content, trims leading and trailing whitespace to obtain the
container id, executes `/cleanup.sh` in that container (non-silent), then
force-removes the container with its volumes, and finally deletes the
identity file, in that order. -/
theorem ensureContainerRemoval_sequence
    (execRun : ExecCall → ExecOutcome) (fs : FS) (ctx : RunnerContext)
    (content : String) (c1 c2 : Int)
    (hread : readFileOpt fs (containerIdFilePath ctx) = some content)
    (h1 : execRun ⟨"docker", ["exec", jsTrim content, "/bin/bash", "-c", "/cleanup.sh"], false⟩ = .exitCode c1)
    (h2 : execRun ⟨"docker", ["rm", "--force", "--volumes", jsTrim content], true⟩ = .exitCode c2) :
    Docker.ensureContainerRemoval execRun fs ctx =
      .ok (rmFileSync fs (containerIdFilePath ctx))
        [⟨"docker", ["exec", jsTrim content, "/bin/bash", "-c", "/cleanup.sh"], false⟩,
         ⟨"docker", ["rm", "--force", "--volumes", jsTrim content], true⟩] := by
  have hex := existsSync_of_readFileOpt hread
  simp [Docker.ensureContainerRemoval, hex, hread, h1, h2]

/-- Witness for `ensureContainerRemoval_sequence`. -/
theorem ensureContainerRemoval_sequence_witness :
    Docker.ensureContainerRemoval (fun _ => .exitCode 0)
        ⟨[("/tmp/container_run1", "abc123\n")], []⟩ ⟨"/tmp", "run1"⟩ =
      .ok ⟨[], []⟩
        [⟨"docker", ["exec", "abc123", "/bin/bash", "-c", "/cleanup.sh"], false⟩,
         ⟨"docker", ["rm", "--force", "--volumes", "abc123"], true⟩] := by
  have h := ensureContainerRemoval_sequence (fun _ => .exitCode 0)
    ⟨[("/tmp/container_run1", "abc123\n")], []⟩ ⟨"/tmp", "run1"⟩ "abc123\n" 0 0
    (by decide) (by decide) (by decide)
  rw [h]
  decide

/-- Counterexample to claim C1 as stated: the code trims *leading* whitespace
as well, not only trailing whitespace.  On a file containing `" abc123\n"`,
the claim's reading would target `" abc123"`, the code targets `"abc123"`. -/
theorem ensureContainerRemoval_trailing_trim_counterexample :
    specTrimTrailing " abc123\n" = " abc123" ∧
    jsTrim " abc123\n" = "abc123" ∧
    Docker.ensureContainerRemoval (fun _ => .exitCode 0)
        ⟨[("/tmp/container_run1", " abc123\n")], []⟩ ⟨"/tmp", "run1"⟩ =
      .ok ⟨[], []⟩
        [⟨"docker", ["exec", "abc123", "/bin/bash", "-c", "/cleanup.sh"], false⟩,
         ⟨"docker", ["rm", "--force", "--volumes", "abc123"], true⟩] ∧
    (" abc123" : String) ≠ "abc123" := by
  refine ⟨by decide, by decide, ?_, by decide⟩
  decide

/-- Claim C2: once an identity file is found, both runtime calls proceed for
any exit codes (the force-remove is attempted regardless of the cleanup
script's exit code); only a catastrophic launch failure of a runtime call is
escalated, in which case the identity file is not deleted. -/
theorem ensureContainerRemoval_best_effort
    (execRun : ExecCall → ExecOutcome) (fs : FS) (ctx : RunnerContext)
    (content : String)
    (hread : readFileOpt fs (containerIdFilePath ctx) = some content) :
    (∀ c1 c2 : Int,
      execRun ⟨"docker", ["exec", jsTrim content, "/bin/bash", "-c", "/cleanup.sh"], false⟩ = .exitCode c1 →
      execRun ⟨"docker", ["rm", "--force", "--volumes", jsTrim content], true⟩ = .exitCode c2 →
      Docker.ensureContainerRemoval execRun fs ctx =
        .ok (rmFileSync fs (containerIdFilePath ctx))
          [⟨"docker", ["exec", jsTrim content, "/bin/bash", "-c", "/cleanup.sh"], false⟩,
           ⟨"docker", ["rm", "--force", "--volumes", jsTrim content], true⟩]) ∧
    (execRun ⟨"docker", ["exec", jsTrim content, "/bin/bash", "-c", "/cleanup.sh"], false⟩ = .launchFailure →
      Docker.ensureContainerRemoval execRun fs ctx =
        .fatal fs [⟨"docker", ["exec", jsTrim content, "/bin/bash", "-c", "/cleanup.sh"], false⟩]) ∧
    (∀ c1 : Int,
      execRun ⟨"docker", ["exec", jsTrim content, "/bin/bash", "-c", "/cleanup.sh"], false⟩ = .exitCode c1 →
      execRun ⟨"docker", ["rm", "--force", "--volumes", jsTrim content], true⟩ = .launchFailure →
      Docker.ensureContainerRemoval execRun fs ctx =
        .fatal fs [⟨"docker", ["exec", jsTrim content, "/bin/bash", "-c", "/cleanup.sh"], false⟩,
                   ⟨"docker", ["rm", "--force", "--volumes", jsTrim content], true⟩]) := by
  have hex := existsSync_of_readFileOpt hread
  refine ⟨fun c1 c2 h1 h2 => ?_, fun h1 => ?_, fun c1 h1 h2 => ?_⟩
  · simp [Docker.ensureContainerRemoval, hex, hread, h1, h2]
  · simp [Docker.ensureContainerRemoval, hex, hread, h1]
  · simp [Docker.ensureContainerRemoval, hex, hread, h1, h2]

/-- Witness for `ensureContainerRemoval_best_effort`: the cleanup script exits
with the non-zero code 137, and the force-remove still proceeds. -/
theorem ensureContainerRemoval_best_effort_witness :
    Docker.ensureContainerRemoval
        (fun c => if c.silent then .exitCode 0 else .exitCode 137)
        ⟨[("/tmp/container_run1", "abc123\n")], []⟩ ⟨"/tmp", "run1"⟩ =
      .ok ⟨[], []⟩
        [⟨"docker", ["exec", "abc123", "/bin/bash", "-c", "/cleanup.sh"], false⟩,
         ⟨"docker", ["rm", "--force", "--volumes", "abc123"], true⟩] ∧
    Docker.ensureContainerRemoval (fun _ => .launchFailure)
        ⟨[("/tmp/container_run1", "abc123\n")], []⟩ ⟨"/tmp", "run1"⟩ =
      .fatal ⟨[("/tmp/container_run1", "abc123\n")], []⟩
        [⟨"docker", ["exec", "abc123", "/bin/bash", "-c", "/cleanup.sh"], false⟩] := by
  constructor
  · have h := (ensureContainerRemoval_best_effort
      (fun c => if c.silent then .exitCode 0 else .exitCode 137)
      ⟨[("/tmp/container_run1", "abc123\n")], []⟩ ⟨"/tmp", "run1"⟩ "abc123\n" (by decide)).1
      137 0 (by decide) (by decide)
    rw [h]
    decide
  · have h := (ensureContainerRemoval_best_effort (fun _ => .launchFailure)
      ⟨[("/tmp/container_run1", "abc123\n")], []⟩ ⟨"/tmp", "run1"⟩ "abc123\n" (by decide)).2.1
      (by decide)
    rw [h]
    decide

/-- Claim C4: for both platforms that reach command construction, `run` sets
the execution options to the caller's silent flag and to tolerate non-zero
exit codes, and returns the child's exit code verbatim without raising. -/
theorem run_returns_exit_code_verbatim (platform : String)
    (hp : platform = "linux" ∨ platform = "win32")
    (execCommand : String → ExecOptions → Int)
    (envVarString : DockerParameters → List StringKeyValuePair → String)
    (fs : FS) (image : String) (parameters : DockerParameters) (silent : Bool)
    (overrideCommands : String) (additionalVariables : List StringKeyValuePair)
    (options : ExecOptions) (entrypointBash : Bool) :
    ∃ fsOut command,
      Docker.run platform execCommand envVarString fs image parameters silent
          overrideCommands additionalVariables options entrypointBash =
        (fsOut, Except.ok (execCommand command ⟨silent, true⟩)) := by
  rcases hp with rfl | rfl
  · exact ⟨(Docker.getLinuxCommand (envVarString parameters additionalVariables) fs image
        parameters overrideCommands entrypointBash).1,
      (Docker.getLinuxCommand (envVarString parameters additionalVariables) fs image
        parameters overrideCommands entrypointBash).2, rfl⟩
  · exact ⟨fs, Docker.getWindowsCommand (envVarString parameters []) image parameters, rfl⟩

/-- Witness for `run_returns_exit_code_verbatim`: exit codes 0 and 137 are
passed through unmodified. -/
theorem run_returns_exit_code_verbatim_witness :
    (Docker.run "linux" (fun _ _ => 137) (fun _ _ => "[env]") sampleFS "img"
        sampleParams false "" [] ⟨true, false⟩ false).2 = Except.ok 137 ∧
    (Docker.run "win32" (fun _ _ => 0) (fun _ _ => "[env]") sampleFS "img"
        sampleParams true "" [] ⟨false, false⟩ false).2 = Except.ok 0 := by
  constructor
  · obtain ⟨fsOut, cmd, h⟩ := run_returns_exit_code_verbatim "linux" (Or.inl rfl)
      (fun _ _ => 137) (fun _ _ => "[env]") sampleFS "img" sampleParams false "" [] ⟨true, false⟩ false
    rw [h]
  · obtain ⟨fsOut, cmd, h⟩ := run_returns_exit_code_verbatim "win32" (Or.inr rfl)
      (fun _ _ => 0) (fun _ _ => "[env]") sampleFS "img" sampleParams true "" [] ⟨false, false⟩ false
    rw [h]

/-- Claim C5: the identity-file path is the pure function
`(temporaryDirectoryPath, runIdentifier) ↦ <temporaryDirectoryPath>/container_<runIdentifier>`,
and the `--cidfile` fragment embedded in the Linux command is the same path
that `ensureContainerRemoval` computes for the same `RunnerContext` fields. -/
theorem containerIdFilePath_stable :
    (∀ t g : String, containerIdFilePath ⟨t, g⟩ = t ++ "/container_" ++ g) ∧
    (∀ p : DockerParameters,
      renderTemplate [Chunk.var p.runnerTemporaryPath, Chunk.lit "/container_",
          Chunk.var p.githubAction] =
        containerIdFilePath p.runnerContext) := by
  have hjoin : ∀ t g : String, containerIdFilePath ⟨t, g⟩ = t ++ "/container_" ++ g := by
    intro t g
    apply String.ext
    simp [containerIdFilePath, pathJoin, String.data_append, List.append_assoc]
  refine ⟨hjoin, fun p => ?_⟩
  simp only [DockerParameters.runnerContext]
  rw [hjoin p.runnerTemporaryPath p.githubAction]
  apply String.ext
  simp [renderTemplate, Chunk.str, String.data_append, List.append_assoc]

/-- Claim C10: `darwin` passes `Action.checkCompatibility` (it is a supported
platform for the action) yet `Docker.run` raises the unsupported-platform
error for it before consulting the process runner; every platform other than
`linux` and `win32` is rejected the same way. -/
theorem darwin_compat_but_run_unsupported :
    ("darwin" ∈ Action.supportedPlatforms ∧
      Action.checkCompatibility "darwin" = .ok ()) ∧
    (∀ platform : String, platform ≠ "linux" → platform ≠ "win32" →
      ∀ (execCommand : String → ExecOptions → Int)
        (envVarString : DockerParameters → List StringKeyValuePair → String)
        (fs : FS) (image : String) (parameters : DockerParameters) (silent : Bool)
        (overrideCommands : String) (additionalVariables : List StringKeyValuePair)
        (options : ExecOptions) (entrypointBash : Bool),
        Docker.run platform execCommand envVarString fs image parameters silent
            overrideCommands additionalVariables options entrypointBash =
          (fs, .error ("Operation system, " ++ platform ++ ", is not supported yet."))) := by
  refine ⟨⟨by decide, by rfl⟩, ?_⟩
  intro platform h1 h2 execCommand envVarString fs image parameters silent
    overrideCommands additionalVariables options entrypointBash
  simp [Docker.run, h1, h2]

/-- Witness for `darwin_compat_but_run_unsupported`: on `darwin` the result is
the unsupported-platform error, independent of the exec oracle. -/
theorem darwin_compat_but_run_unsupported_witness :
    Docker.run "darwin" (fun _ _ => 0) (fun _ _ => "[env]") sampleFS "img"
        sampleParams false "" [] ⟨false, false⟩ false =
      (sampleFS, .error "Operation system, darwin, is not supported yet.") := by
  have h := darwin_compat_but_run_unsupported.2 "darwin" (by decide) (by decide)
    (fun _ _ => 0) (fun _ _ => "[env]") sampleFS "img" sampleParams false "" [] ⟨false, false⟩ false
  rw [h]
  rfl

/-! ## Fragment resolution lemmas -/
theorem gitTokenChunks_eq_nil (t : Option String) (h : optionStringTruthy t = false) :
    gitTokenChunks t = [] := by
  rcases t with _ | s
  · rfl
  · simp only [optionStringTruthy, Bool.not_eq_false'] at h
    simp [gitTokenChunks, h]

theorem gitTokenChunks_cases (t : Option String) :
    gitTokenChunks t = [] ∨
      ∃ tok, gitTokenChunks t =
        [.lit "--env GIT_PRIVATE_TOKEN=\"", .var tok, .lit "\""] := by
  rcases t with _ | s
  · exact Or.inl rfl
  · by_cases h : s.isEmpty
    · exact Or.inl (by simp [gitTokenChunks, h])
    · exact Or.inr ⟨s, by simp [gitTokenChunks, h]⟩

theorem sshAgentEnvChunks_eq_nil (a : Option String) (h : optionStringTruthy a = false) :
    sshAgentEnvChunks a = [] := by
  rcases a with _ | s
  · rfl
  · simp only [optionStringTruthy, Bool.not_eq_false'] at h
    simp [sshAgentEnvChunks, h]

theorem sshAgentEnvChunks_eq_of_truthy (a : Option String) (h : optionStringTruthy a = true) :
    sshAgentEnvChunks a = [.lit "--env SSH_AUTH_SOCK=/ssh-agent"] := by
  rcases a with _ | s
  · simp [optionStringTruthy] at h
  · simp only [optionStringTruthy, Bool.not_eq_true'] at h
    simp [sshAgentEnvChunks, h]

theorem sshAgentVolumeChunks_eq_nil (a : Option String) (h : optionStringTruthy a = false) :
    sshAgentVolumeChunks a = [] := by
  rcases a with _ | s
  · rfl
  · simp only [optionStringTruthy, Bool.not_eq_false'] at h
    simp [sshAgentVolumeChunks, h]

theorem sshAgentVolumeChunks_eq_of_truthy (a : Option String) (h : optionStringTruthy a = true) :
    ∃ s, a = some s ∧
      sshAgentVolumeChunks a = [.lit "--volume ", .var s, .lit ":/ssh-agent"] := by
  rcases a with _ | s
  · simp [optionStringTruthy] at h
  · simp only [optionStringTruthy, Bool.not_eq_true'] at h
    exact ⟨s, rfl, by simp [sshAgentVolumeChunks, h]⟩

theorem knownHostsChunks_eq_nil_left (a b : Option String)
    (h : optionStringTruthy a = false) : knownHostsChunks a b = [] := by
  simp [knownHostsChunks, h]

theorem knownHostsChunks_eq_nil_right (a b : Option String)
    (h : optionStringTruthy b = true) : knownHostsChunks a b = [] := by
  simp [knownHostsChunks, h]

theorem knownHostsChunks_eq_of (a b : Option String)
    (ha : optionStringTruthy a = true) (hb : optionStringTruthy b = false) :
    knownHostsChunks a b =
      [.lit "--volume /home/runner/.ssh/known_hosts:/root/.ssh/known_hosts:ro"] := by
  simp [knownHostsChunks, ha, hb]

theorem publicKeysChunks_eq_nil (b : Option String) (h : optionStringTruthy b = false) :
    publicKeysChunks b = [] := by
  rcases b with _ | s
  · rfl
  · simp only [optionStringTruthy, Bool.not_eq_false'] at h
    simp [publicKeysChunks, h]

theorem publicKeysChunks_eq_of_truthy (b : Option String) (h : optionStringTruthy b = true) :
    ∃ s, b = some s ∧
      publicKeysChunks b = [.lit "--volume ", .var s, .lit ":/root/.ssh:ro"] := by
  rcases b with _ | s
  · simp [optionStringTruthy] at h
  · simp only [optionStringTruthy, Bool.not_eq_true'] at h
    exact ⟨s, rfl, by simp [publicKeysChunks, h]⟩

/-! ## Case enumeration for conditional fragments -/
theorem sshAgentEnvChunks_cases (a : Option String) :
    sshAgentEnvChunks a = [] ∨
      sshAgentEnvChunks a = [.lit "--env SSH_AUTH_SOCK=/ssh-agent"] := by
  by_cases h : optionStringTruthy a
  · exact Or.inr (sshAgentEnvChunks_eq_of_truthy a h)
  · exact Or.inl (sshAgentEnvChunks_eq_nil a (by simpa using h))

theorem sshAgentVolumeChunks_cases (a : Option String) :
    sshAgentVolumeChunks a = [] ∨
      ∃ s, sshAgentVolumeChunks a = [.lit "--volume ", .var s, .lit ":/ssh-agent"] := by
  by_cases h : optionStringTruthy a
  · obtain ⟨s, -, hs⟩ := sshAgentVolumeChunks_eq_of_truthy a h
    exact Or.inr ⟨s, hs⟩
  · exact Or.inl (sshAgentVolumeChunks_eq_nil a (by simpa using h))

theorem knownHostsChunks_cases (a b : Option String) :
    knownHostsChunks a b = [] ∨
      knownHostsChunks a b =
        [.lit "--volume /home/runner/.ssh/known_hosts:/root/.ssh/known_hosts:ro"] := by
  unfold knownHostsChunks
  by_cases h : (optionStringTruthy a && !optionStringTruthy b) = true
  · rw [if_pos h]
    exact Or.inr rfl
  · rw [if_neg h]
    exact Or.inl rfl

theorem publicKeysChunks_cases (b : Option String) :
    publicKeysChunks b = [] ∨
      ∃ s, publicKeysChunks b = [.lit "--volume ", .var s, .lit ":/root/.ssh:ro"] := by
  by_cases h : optionStringTruthy b
  · obtain ⟨s, -, hs⟩ := publicKeysChunks_eq_of_truthy b h
    exact Or.inr ⟨s, hs⟩
  · exact Or.inl (publicKeysChunks_eq_nil b (by simpa using h))

theorem commandPrefixFor_cases (image : String) :
    commandPrefixFor image = "/bin/sh" ∨ commandPrefixFor image = "/bin/bash" := by
  unfold commandPrefixFor
  by_cases h : image = "alpine"
  · rw [if_pos h]; exact Or.inl rfl
  · rw [if_neg h]; exact Or.inr rfl

theorem entrypointChunks_true (cp : String) :
    entrypointChunks true cp = [.lit ("--entrypoint " ++ cp)] := rfl

theorem entrypointChunks_false (cp : String) : entrypointChunks false cp = [] := rfl

theorem shellInvocationChunks_true (cp : String) :
    shellInvocationChunks true cp = [.lit "-c"] := rfl

theorem shellInvocationChunks_false (cp : String) :
    shellInvocationChunks false cp = [.lit (cp ++ " -c")] := rfl

/-- Combine a subset bound on the literal chunks with a guard check on the
superset. -/
theorem litGuard_of_subset {n : String} {cs : List Chunk} {superset : List String}
    (hsub : ∀ s ∈ templateLits cs, s ∈ superset)
    (hsup : ∀ s ∈ superset, litGuard n.data s.data = true) :
    ∀ s ∈ templateLits cs, litGuard n.data s.data = true :=
  fun s hs => hsup s (hsub s hs)

/-- Adjacent-variable freedom is preserved by appending a literal-led
template. -/
theorem noAdjacentVars_append {xs ys : List Chunk}
    (hy : noAdjacentVars ys = true) (hled : litLed ys = true)
    (hx : noAdjacentVars xs = true) : noAdjacentVars (xs ++ ys) = true := by
  induction xs with
  | nil => simpa using hy
  | cons c cs ih =>
    cases cs with
    | nil =>
      cases ys with
      | nil => rfl
      | cons d ds =>
        have hd : d.isVar = false := by
          cases d with
          | lit s => rfl
          | var s => simp [litLed] at hled
        simp only [List.singleton_append, noAdjacentVars, Bool.and_eq_true]
        exact ⟨by simp [hd], hy⟩
    | cons c2 cs2 =>
      simp only [noAdjacentVars, Bool.and_eq_true] at hx
      have := ih hx.2
      simp only [List.cons_append, noAdjacentVars, Bool.and_eq_true] at this ⊢
      exact ⟨hx.1, this⟩

theorem noAdjacentVars_gitTokenChunks (t : Option String) :
    noAdjacentVars (gitTokenChunks t) = true := by
  rcases gitTokenChunks_cases t with h | ⟨tok, h⟩ <;> rw [h] <;> rfl

theorem litLed_gitTokenChunks (t : Option String) : litLed (gitTokenChunks t) = true := by
  rcases gitTokenChunks_cases t with h | ⟨tok, h⟩ <;> rw [h] <;> rfl

theorem noAdjacentVars_sshAgentEnvChunks (a : Option String) :
    noAdjacentVars (sshAgentEnvChunks a) = true := by
  rcases sshAgentEnvChunks_cases a with h | h <;> rw [h] <;> rfl

theorem litLed_sshAgentEnvChunks (a : Option String) : litLed (sshAgentEnvChunks a) = true := by
  rcases sshAgentEnvChunks_cases a with h | h <;> rw [h] <;> rfl

theorem noAdjacentVars_sshAgentVolumeChunks (a : Option String) :
    noAdjacentVars (sshAgentVolumeChunks a) = true := by
  rcases sshAgentVolumeChunks_cases a with h | ⟨s, h⟩ <;> rw [h] <;> rfl

theorem litLed_sshAgentVolumeChunks (a : Option String) :
    litLed (sshAgentVolumeChunks a) = true := by
  rcases sshAgentVolumeChunks_cases a with h | ⟨s, h⟩ <;> rw [h] <;> rfl

theorem noAdjacentVars_knownHostsChunks (a b : Option String) :
    noAdjacentVars (knownHostsChunks a b) = true := by
  rcases knownHostsChunks_cases a b with h | h <;> rw [h] <;> rfl

theorem litLed_knownHostsChunks (a b : Option String) :
    litLed (knownHostsChunks a b) = true := by
  rcases knownHostsChunks_cases a b with h | h <;> rw [h] <;> rfl

theorem noAdjacentVars_publicKeysChunks (b : Option String) :
    noAdjacentVars (publicKeysChunks b) = true := by
  rcases publicKeysChunks_cases b with h | ⟨s, h⟩ <;> rw [h] <;> rfl

theorem litLed_publicKeysChunks (b : Option String) : litLed (publicKeysChunks b) = true := by
  rcases publicKeysChunks_cases b with h | ⟨s, h⟩ <;> rw [h] <;> rfl

theorem noAdjacentVars_entrypointChunks (eb : Bool) (cp : String) :
    noAdjacentVars (entrypointChunks eb cp) = true := by
  cases eb <;> rfl

theorem litLed_entrypointChunks (eb : Bool) (cp : String) :
    litLed (entrypointChunks eb cp) = true := by
  cases eb <;> rfl

theorem noAdjacentVars_shellInvocationChunks (eb : Bool) (cp : String) :
    noAdjacentVars (shellInvocationChunks eb cp) = true := by
  cases eb <;> rfl

theorem litLed_shellInvocationChunks (eb : Bool) (cp : String) :
    litLed (shellInvocationChunks eb cp) = true := by
  cases eb <;> rfl

/-- The tail of the Linux template has no two adjacent interpolations. -/
theorem noAdjacentVars_linuxTail (image ov : String) (eb : Bool) :
    noAdjacentVars (linuxTailChunks image ov eb) = true := by
  unfold linuxTailChunks
  refine noAdjacentVars_append rfl rfl ?_
  apply noAdjacentVars_append (noAdjacentVars_shellInvocationChunks _ _)
    (litLed_shellInvocationChunks _ _)
  refine noAdjacentVars_append rfl rfl ?_
  apply noAdjacentVars_append (noAdjacentVars_entrypointChunks _ _)
    (litLed_entrypointChunks _ _)
  rfl

theorem litLed_linuxTail (image ov : String) (eb : Bool) :
    litLed (linuxTailChunks image ov eb) = true := rfl

/-- The Linux template has no two adjacent interpolations, whatever the
parameters. -/
theorem noAdjacentVars_linux (env image : String) (p : DockerParameters)
    (ov : String) (eb : Bool) :
    noAdjacentVars (linuxRunChunks env image p ov eb) = true := by
  unfold linuxRunChunks linuxMainChunks
  apply noAdjacentVars_append (noAdjacentVars_linuxTail image ov eb)
    (litLed_linuxTail image ov eb)
  refine noAdjacentVars_append rfl rfl ?_
  apply noAdjacentVars_append (noAdjacentVars_publicKeysChunks _) (litLed_publicKeysChunks _)
  refine noAdjacentVars_append rfl rfl ?_
  apply noAdjacentVars_append (noAdjacentVars_knownHostsChunks _ _) (litLed_knownHostsChunks _ _)
  refine noAdjacentVars_append rfl rfl ?_
  apply noAdjacentVars_append (noAdjacentVars_sshAgentVolumeChunks _)
    (litLed_sshAgentVolumeChunks _)
  refine noAdjacentVars_append rfl rfl ?_
  apply noAdjacentVars_append (noAdjacentVars_sshAgentEnvChunks _) (litLed_sshAgentEnvChunks _)
  refine noAdjacentVars_append rfl rfl ?_
  apply noAdjacentVars_append (noAdjacentVars_gitTokenChunks _) (litLed_gitTokenChunks _)
  rfl

/-- The Windows template has no two adjacent interpolations. -/
theorem noAdjacentVars_windows (env image : String) (p : DockerParameters) :
    noAdjacentVars (windowsRunChunks env image p) = true := by
  unfold windowsRunChunks
  refine noAdjacentVars_append rfl rfl ?_
  apply noAdjacentVars_append (noAdjacentVars_gitTokenChunks _) (litLed_gitTokenChunks _)
  rfl

/-! ## Literal-subset bounds and needle guards -/
theorem templateLits_append (xs ys : List Chunk) :
    templateLits (xs ++ ys) = templateLits xs ++ templateLits ys := by
  induction xs with
  | nil => rfl
  | cons c cs ih => cases c <;> simp [templateLits, ih]

theorem templateVars_append (xs ys : List Chunk) :
    templateVars (xs ++ ys) = templateVars xs ++ templateVars ys := by
  induction xs with
  | nil => rfl
  | cons c cs ih => cases c <;> simp [templateVars, ih]

set_option maxHeartbeats 1600000 in
/-- The literal chunks of the main Linux template, grouped around the
conditional fragments. -/
theorem templateLits_linuxMain (env : String) (p : DockerParameters) :
    templateLits (linuxMainChunks env p) =
      ["docker run ", "            --workdir ", " ", "            --cidfile=",
       "/container_", " ", "            --rm ", "            ", " ",
       "            --env GITHUB_WORKSPACE=", " ",
       "            --env GIT_CONFIG_EXTENSIONS ", "            "] ++
      templateLits (gitTokenChunks p.gitPrivateToken) ++
      [" ", "            "] ++
      templateLits (sshAgentEnvChunks p.sshAgent) ++
      [" ", "            --volume \"", "/_github_home\":\"/root:z\" ",
       "            --volume \"", "/_github_workflow\":\"/github/workflow:z\" ",
       "            --volume \"", "\":\"", ":z\" ",
       "            --volume \"", "/default-build-script:/UnityBuilderAction:z\" ",
       "            --volume \"", "/platforms/ubuntu/steps:/steps:z\" ",
       "            --volume \"", "/platforms/ubuntu/entrypoint.sh:/entrypoint.sh:z\" ",
       "            --volume \"", "/unity-config:/usr/share/unity3d/config/:z\" ",
       "            --volume \"", "/BlankProject\":\"/BlankProject:z\" ",
       "            --cpus=", " ", "            --memory=", " ", "            "] ++
      templateLits (sshAgentVolumeChunks p.sshAgent) ++
      [" ", "            "] ++
      templateLits (knownHostsChunks p.sshAgent p.sshPublicKeysDirectoryPath) ++
      [" ", "            "] ++
      templateLits (publicKeysChunks p.sshPublicKeysDirectoryPath) ++
      [" "] := by
  simp [linuxMainChunks, templateLits_append, templateLits, List.append_assoc]

/-- The literal chunks of the Linux template tail, grouped around the
conditional fragments. -/
theorem templateLits_linuxTail (image ov : String) (eb : Bool) :
    templateLits (linuxTailChunks image ov eb) =
      ["            "] ++ templateLits (entrypointChunks eb (commandPrefixFor image)) ++
      [" ", "            ", " ", "            "] ++
      templateLits (shellInvocationChunks eb (commandPrefixFor image)) ++
      [" ", "            \"", "\""] := by
  simp [linuxTailChunks, templateLits_append, templateLits, List.append_assoc]

theorem mem_templateLits_gitTokenChunks {t : Option String} {s : String}
    (hs : s ∈ templateLits (gitTokenChunks t)) : s ∈ tokenLits := by
  rcases gitTokenChunks_cases t with h | ⟨tok, h⟩ <;> rw [h] at hs
  · simp [templateLits] at hs
  · simp only [templateLits, List.mem_cons, List.not_mem_nil, or_false] at hs
    rcases hs with rfl | rfl <;> decide

theorem mem_templateLits_sshAgentEnvChunks {a : Option String} {s : String}
    (hs : s ∈ templateLits (sshAgentEnvChunks a)) : s ∈ sshAgentLits := by
  rcases sshAgentEnvChunks_cases a with h | h <;> rw [h] at hs
  · simp [templateLits] at hs
  · simp only [templateLits, List.mem_cons, List.not_mem_nil, or_false] at hs
    rcases hs with rfl <;> decide

theorem mem_templateLits_sshAgentVolumeChunks {a : Option String} {s : String}
    (hs : s ∈ templateLits (sshAgentVolumeChunks a)) : s ∈ sshAgentLits := by
  rcases sshAgentVolumeChunks_cases a with h | ⟨x, h⟩ <;> rw [h] at hs
  · simp [templateLits] at hs
  · simp only [templateLits, List.mem_cons, List.not_mem_nil, or_false] at hs
    rcases hs with rfl | rfl <;> decide

theorem mem_templateLits_knownHostsChunks {a b : Option String} {s : String}
    (hs : s ∈ templateLits (knownHostsChunks a b)) : s ∈ knownHostsLits := by
  rcases knownHostsChunks_cases a b with h | h <;> rw [h] at hs
  · simp [templateLits] at hs
  · simp only [templateLits, List.mem_cons, List.not_mem_nil, or_false] at hs
    rcases hs with rfl <;> decide

theorem mem_templateLits_publicKeysChunks {b : Option String} {s : String}
    (hs : s ∈ templateLits (publicKeysChunks b)) : s ∈ publicKeysLits := by
  rcases publicKeysChunks_cases b with h | ⟨x, h⟩ <;> rw [h] at hs
  · simp [templateLits] at hs
  · simp only [templateLits, List.mem_cons, List.not_mem_nil, or_false] at hs
    rcases hs with rfl | rfl <;> decide

theorem mem_templateLits_entrypointChunks {eb : Bool} {image s : String}
    (hs : s ∈ templateLits (entrypointChunks eb (commandPrefixFor image))) :
    s ∈ entrypointLits := by
  cases eb
  · rw [entrypointChunks_false] at hs
    simp [templateLits] at hs
  · rw [entrypointChunks_true] at hs
    simp only [templateLits, List.mem_cons, List.not_mem_nil, or_false] at hs
    rcases commandPrefixFor_cases image with h | h <;> rw [h] at hs <;>
      rcases hs with rfl <;> decide

theorem mem_templateLits_shellInvocationChunks {eb : Bool} {image s : String}
    (hs : s ∈ templateLits (shellInvocationChunks eb (commandPrefixFor image))) :
    s ∈ shellLits := by
  cases eb
  · rw [shellInvocationChunks_false] at hs
    simp only [templateLits, List.mem_cons, List.not_mem_nil, or_false] at hs
    rcases commandPrefixFor_cases image with h | h <;> rw [h] at hs <;>
      rcases hs with rfl <;> decide
  · rw [shellInvocationChunks_true] at hs
    simp only [templateLits, List.mem_cons, List.not_mem_nil, or_false] at hs
    rcases hs with rfl <;> decide

/-- Master subset bound for the literal chunks of the Linux template: every
literal is in `S` provided the always-present literals are and each
conditional fragment's literals are. -/
theorem templateLits_linux_sub {S : List String} (env image : String)
    (p : DockerParameters) (ov : String) (eb : Bool)
    (hcore : ∀ x ∈ linuxLitsCore, x ∈ S)
    (htok : ∀ x ∈ templateLits (gitTokenChunks p.gitPrivateToken), x ∈ S)
    (hsshEnv : ∀ x ∈ templateLits (sshAgentEnvChunks p.sshAgent), x ∈ S)
    (hsshVol : ∀ x ∈ templateLits (sshAgentVolumeChunks p.sshAgent), x ∈ S)
    (hkh : ∀ x ∈ templateLits (knownHostsChunks p.sshAgent p.sshPublicKeysDirectoryPath), x ∈ S)
    (hpk : ∀ x ∈ templateLits (publicKeysChunks p.sshPublicKeysDirectoryPath), x ∈ S)
    (hentry : ∀ x ∈ templateLits (entrypointChunks eb (commandPrefixFor image)), x ∈ S) :
    ∀ s ∈ templateLits (linuxRunChunks env image p ov eb), s ∈ S := by
  intro s hs
  unfold linuxRunChunks at hs
  rw [templateLits_append, templateLits_linuxMain, templateLits_linuxTail] at hs
  simp only [List.mem_append] at hs
  rcases hs with ((((((((((h | h) | h) | h) | h) | h) | h) | h) | h) | h) | h) |
    ((((h | h) | h) | h) | h)
  · exact hcore s ((by decide :
      ∀ x ∈ ["docker run ", "            --workdir ", " ", "            --cidfile=",
       "/container_", " ", "            --rm ", "            ", " ",
       "            --env GITHUB_WORKSPACE=", " ",
       "            --env GIT_CONFIG_EXTENSIONS ", "            "], x ∈ linuxLitsCore) s h)
  · exact htok s h
  · exact hcore s ((by decide : ∀ x ∈ [" ", "            "], x ∈ linuxLitsCore) s h)
  · exact hsshEnv s h
  · exact hcore s ((by decide :
      ∀ x ∈ [" ", "            --volume \"", "/_github_home\":\"/root:z\" ",
       "            --volume \"", "/_github_workflow\":\"/github/workflow:z\" ",
       "            --volume \"", "\":\"", ":z\" ",
       "            --volume \"", "/default-build-script:/UnityBuilderAction:z\" ",
       "            --volume \"", "/platforms/ubuntu/steps:/steps:z\" ",
       "            --volume \"", "/platforms/ubuntu/entrypoint.sh:/entrypoint.sh:z\" ",
       "            --volume \"", "/unity-config:/usr/share/unity3d/config/:z\" ",
       "            --volume \"", "/BlankProject\":\"/BlankProject:z\" ",
       "            --cpus=", " ", "            --memory=", " ", "            "],
        x ∈ linuxLitsCore) s h)
  · exact hsshVol s h
  · exact hcore s ((by decide : ∀ x ∈ [" ", "            "], x ∈ linuxLitsCore) s h)
  · exact hkh s h
  · exact hcore s ((by decide : ∀ x ∈ [" ", "            "], x ∈ linuxLitsCore) s h)
  · exact hpk s h
  · exact hcore s ((by decide : ∀ x ∈ [" "], x ∈ linuxLitsCore) s h)
  · exact hcore s ((by decide : ∀ x ∈ ["            "], x ∈ linuxLitsCore) s h)
  · exact hentry s h
  · exact hcore s ((by decide :
      ∀ x ∈ [" ", "            ", " ", "            "], x ∈ linuxLitsCore) s h)
  · exact hcore s ((fun x hx => (by decide : ∀ x ∈ shellLits, x ∈ linuxLitsCore) x
      (mem_templateLits_shellInvocationChunks hx)) s h)
  · exact hcore s ((by decide : ∀ x ∈ [" ", "            \"", "\""], x ∈ linuxLitsCore) s h)

theorem templateLits_sub_noSSH (env image : String) (p : DockerParameters)
    (ov : String) (eb : Bool)
    (ha : optionStringTruthy p.sshAgent = false)
    (hb : optionStringTruthy p.sshPublicKeysDirectoryPath = false) :
    ∀ s ∈ templateLits (linuxRunChunks env image p ov eb), s ∈ linuxLitsNoSSH := by
  apply templateLits_linux_sub
  · decide
  · exact fun x hx =>
      (by decide : ∀ y ∈ tokenLits, y ∈ linuxLitsNoSSH) x (mem_templateLits_gitTokenChunks hx)
  · intro x hx
    rw [sshAgentEnvChunks_eq_nil _ ha] at hx
    simp [templateLits] at hx
  · intro x hx
    rw [sshAgentVolumeChunks_eq_nil _ ha] at hx
    simp [templateLits] at hx
  · intro x hx
    rw [knownHostsChunks_eq_nil_left _ _ ha] at hx
    simp [templateLits] at hx
  · intro x hx
    rw [publicKeysChunks_eq_nil _ hb] at hx
    simp [templateLits] at hx
  · exact fun x hx =>
      (by decide : ∀ y ∈ entrypointLits, y ∈ linuxLitsNoSSH) x
        (mem_templateLits_entrypointChunks hx)

theorem templateLits_sub_knownHosts (env image : String) (p : DockerParameters)
    (ov : String) (eb : Bool)
    (hb : optionStringTruthy p.sshPublicKeysDirectoryPath = false) :
    ∀ s ∈ templateLits (linuxRunChunks env image p ov eb), s ∈ linuxLitsKnownHosts := by
  apply templateLits_linux_sub
  · decide
  · exact fun x hx =>
      (by decide : ∀ y ∈ tokenLits, y ∈ linuxLitsKnownHosts) x
        (mem_templateLits_gitTokenChunks hx)
  · exact fun x hx =>
      (by decide : ∀ y ∈ sshAgentLits, y ∈ linuxLitsKnownHosts) x
        (mem_templateLits_sshAgentEnvChunks hx)
  · exact fun x hx =>
      (by decide : ∀ y ∈ sshAgentLits, y ∈ linuxLitsKnownHosts) x
        (mem_templateLits_sshAgentVolumeChunks hx)
  · exact fun x hx =>
      (by decide : ∀ y ∈ knownHostsLits, y ∈ linuxLitsKnownHosts) x
        (mem_templateLits_knownHostsChunks hx)
  · intro x hx
    rw [publicKeysChunks_eq_nil _ hb] at hx
    simp [templateLits] at hx
  · exact fun x hx =>
      (by decide : ∀ y ∈ entrypointLits, y ∈ linuxLitsKnownHosts) x
        (mem_templateLits_entrypointChunks hx)

theorem templateLits_sub_publicKeys (env image : String) (p : DockerParameters)
    (ov : String) (eb : Bool)
    (hb : optionStringTruthy p.sshPublicKeysDirectoryPath = true) :
    ∀ s ∈ templateLits (linuxRunChunks env image p ov eb), s ∈ linuxLitsPublicKeys := by
  apply templateLits_linux_sub
  · decide
  · exact fun x hx =>
      (by decide : ∀ y ∈ tokenLits, y ∈ linuxLitsPublicKeys) x
        (mem_templateLits_gitTokenChunks hx)
  · exact fun x hx =>
      (by decide : ∀ y ∈ sshAgentLits, y ∈ linuxLitsPublicKeys) x
        (mem_templateLits_sshAgentEnvChunks hx)
  · exact fun x hx =>
      (by decide : ∀ y ∈ sshAgentLits, y ∈ linuxLitsPublicKeys) x
        (mem_templateLits_sshAgentVolumeChunks hx)
  · intro x hx
    rw [knownHostsChunks_eq_nil_right _ _ hb] at hx
    simp [templateLits] at hx
  · exact fun x hx =>
      (by decide : ∀ y ∈ publicKeysLits, y ∈ linuxLitsPublicKeys) x
        (mem_templateLits_publicKeysChunks hx)
  · exact fun x hx =>
      (by decide : ∀ y ∈ entrypointLits, y ∈ linuxLitsPublicKeys) x
        (mem_templateLits_entrypointChunks hx)

theorem templateLits_sub_noToken (env image : String) (p : DockerParameters)
    (ov : String) (eb : Bool)
    (ht : optionStringTruthy p.gitPrivateToken = false) :
    ∀ s ∈ templateLits (linuxRunChunks env image p ov eb), s ∈ linuxLitsNoToken := by
  apply templateLits_linux_sub
  · decide
  · intro x hx
    rw [gitTokenChunks_eq_nil _ ht] at hx
    simp [templateLits] at hx
  · exact fun x hx =>
      (by decide : ∀ y ∈ sshAgentLits, y ∈ linuxLitsNoToken) x
        (mem_templateLits_sshAgentEnvChunks hx)
  · exact fun x hx =>
      (by decide : ∀ y ∈ sshAgentLits, y ∈ linuxLitsNoToken) x
        (mem_templateLits_sshAgentVolumeChunks hx)
  · exact fun x hx =>
      (by decide : ∀ y ∈ knownHostsLits, y ∈ linuxLitsNoToken) x
        (mem_templateLits_knownHostsChunks hx)
  · exact fun x hx =>
      (by decide : ∀ y ∈ publicKeysLits, y ∈ linuxLitsNoToken) x
        (mem_templateLits_publicKeysChunks hx)
  · exact fun x hx =>
      (by decide : ∀ y ∈ entrypointLits, y ∈ linuxLitsNoToken) x
        (mem_templateLits_entrypointChunks hx)

theorem templateLits_sub_noEntrypoint (env image : String) (p : DockerParameters)
    (ov : String) :
    ∀ s ∈ templateLits (linuxRunChunks env image p ov false), s ∈ linuxLitsNoEntrypoint := by
  apply templateLits_linux_sub
  · decide
  · exact fun x hx =>
      (by decide : ∀ y ∈ tokenLits, y ∈ linuxLitsNoEntrypoint) x
        (mem_templateLits_gitTokenChunks hx)
  · exact fun x hx =>
      (by decide : ∀ y ∈ sshAgentLits, y ∈ linuxLitsNoEntrypoint) x
        (mem_templateLits_sshAgentEnvChunks hx)
  · exact fun x hx =>
      (by decide : ∀ y ∈ sshAgentLits, y ∈ linuxLitsNoEntrypoint) x
        (mem_templateLits_sshAgentVolumeChunks hx)
  · exact fun x hx =>
      (by decide : ∀ y ∈ knownHostsLits, y ∈ linuxLitsNoEntrypoint) x
        (mem_templateLits_knownHostsChunks hx)
  · exact fun x hx =>
      (by decide : ∀ y ∈ publicKeysLits, y ∈ linuxLitsNoEntrypoint) x
        (mem_templateLits_publicKeysChunks hx)
  · intro x hx
    rw [entrypointChunks_false] at hx
    simp [templateLits] at hx

set_option maxHeartbeats 800000 in
/-- The literal chunks of the Windows template, grouped around the token
fragment. -/
theorem templateLits_windowsRun (env image : String) (p : DockerParameters) :
    templateLits (windowsRunChunks env image p) =
      ["docker run ", "            --workdir c:", " ", "            --rm ",
       "            ", " ", "            --env GITHUB_WORKSPACE=c:", " ",
       "            "] ++
      templateLits (gitTokenChunks p.gitPrivateToken) ++
      [" ", "            --volume \"", "\":\"c:", "\" ",
       "            --volume \"c:/regkeys\":\"c:/regkeys\" ",
       "            --volume \"C:/Program Files/Microsoft Visual Studio\":\"C:/Program Files/Microsoft Visual Studio\" ",
       "            --volume \"C:/Program Files (x86)/Microsoft Visual Studio\":\"C:/Program Files (x86)/Microsoft Visual Studio\" ",
       "            --volume \"C:/Program Files (x86)/Windows Kits\":\"C:/Program Files (x86)/Windows Kits\" ",
       "            --volume \"C:/ProgramData/Microsoft/VisualStudio\":\"C:/ProgramData/Microsoft/VisualStudio\" ",
       "            --volume \"", "/default-build-script\":\"c:/UnityBuilderAction\" ",
       "            --volume \"", "/platforms/windows\":\"c:/steps\" ",
       "            --volume \"", "/unity-config\":\"C:/ProgramData/Unity/config\" ",
       "            --volume \"", "/BlankProject\":\"c:/BlankProject\" ",
       "            --cpus=", " ", "            --memory=", " ",
       "            --isolation=", " ", "            ", " ",
       "            powershell c:/steps/entrypoint.ps1"] := by
  simp [windowsRunChunks, templateLits_append, templateLits, List.append_assoc]

theorem templateLits_windows_sub (env image : String) (p : DockerParameters)
    (ht : optionStringTruthy p.gitPrivateToken = false) :
    ∀ s ∈ templateLits (windowsRunChunks env image p), s ∈ windowsLitsCore := by
  intro s hs
  rw [templateLits_windowsRun] at hs
  simp only [List.mem_append] at hs
  rcases hs with (h | h) | h
  · exact (by decide :
      ∀ x ∈ ["docker run ", "            --workdir c:", " ", "            --rm ",
       "            ", " ", "            --env GITHUB_WORKSPACE=c:", " ",
       "            "], x ∈ windowsLitsCore) s h
  · rw [gitTokenChunks_eq_nil _ ht] at h
    simp [templateLits] at h
  · exact (by decide :
      ∀ x ∈ [" ", "            --volume \"", "\":\"c:", "\" ",
       "            --volume \"c:/regkeys\":\"c:/regkeys\" ",
       "            --volume \"C:/Program Files/Microsoft Visual Studio\":\"C:/Program Files/Microsoft Visual Studio\" ",
       "            --volume \"C:/Program Files (x86)/Microsoft Visual Studio\":\"C:/Program Files (x86)/Microsoft Visual Studio\" ",
       "            --volume \"C:/Program Files (x86)/Windows Kits\":\"C:/Program Files (x86)/Windows Kits\" ",
       "            --volume \"C:/ProgramData/Microsoft/VisualStudio\":\"C:/ProgramData/Microsoft/VisualStudio\" ",
       "            --volume \"", "/default-build-script\":\"c:/UnityBuilderAction\" ",
       "            --volume \"", "/platforms/windows\":\"c:/steps\" ",
       "            --volume \"", "/unity-config\":\"C:/ProgramData/Unity/config\" ",
       "            --volume \"", "/BlankProject\":\"c:/BlankProject\" ",
       "            --cpus=", " ", "            --memory=", " ",
       "            --isolation=", " ", "            ", " ",
       "            powershell c:/steps/entrypoint.ps1"], x ∈ windowsLitsCore) s h

set_option maxRecDepth 4000 in
theorem guard_noSSH :
    ∀ nd ∈ sshNeedles, ∀ s ∈ linuxLitsNoSSH, litGuard nd.data s.data = true := by decide

set_option maxRecDepth 4000 in
theorem guard_knownHosts :
    ∀ s ∈ linuxLitsKnownHosts, litGuard ":/root/.ssh:ro".data s.data = true := by decide

set_option maxRecDepth 4000 in
theorem guard_publicKeys :
    ∀ s ∈ linuxLitsPublicKeys, litGuard "known_hosts".data s.data = true := by decide

set_option maxRecDepth 4000 in
theorem guard_noToken :
    ∀ s ∈ linuxLitsNoToken, litGuard "GIT_PRIVATE_TOKEN".data s.data = true := by decide

set_option maxRecDepth 4000 in
theorem guard_windows :
    ∀ s ∈ windowsLitsCore, litGuard "GIT_PRIVATE_TOKEN".data s.data = true := by decide

set_option maxRecDepth 4000 in
theorem guard_noEntrypoint :
    ∀ s ∈ linuxLitsNoEntrypoint, litGuard "--entrypoint".data s.data = true := by decide

/-- Claim C8: the command builders are pure functions of their inputs: the
Linux command text does not depend on the filesystem state (the only stateful
input), and equal inputs yield byte-identical text on both platforms. -/
theorem commandBuilder_deterministic :
    (∀ (env image : String) (p : DockerParameters) (ov : String) (eb : Bool) (fs1 fs2 : FS),
      (Docker.getLinuxCommand env fs1 image p ov eb).2 =
        (Docker.getLinuxCommand env fs2 image p ov eb).2) ∧
    (∀ (env image : String) (p : DockerParameters),
      Docker.getWindowsCommand env image p = Docker.getWindowsCommand env image p) :=
  ⟨fun _ _ _ _ _ _ _ => rfl, fun _ _ _ => rfl⟩

/-- Claim C7: when the private token is unset (JS-falsy), the text
`GIT_PRIVATE_TOKEN` does not occur in the built command, on the Linux and the
Windows paths, provided none of the interpolated inputs themselves contain
it. -/
theorem gitPrivateToken_absent_never_leaks
    (envL envW : String) (fs : FS) (image : String) (p : DockerParameters)
    (ov : String) (eb : Bool)
    (htok : optionStringTruthy p.gitPrivateToken = false)
    (hvarsL : ∀ s ∈ templateVars (linuxRunChunks envL image p ov eb),
      ¬ occursIn "GIT_PRIVATE_TOKEN" s)
    (hvarsW : ∀ s ∈ templateVars (windowsRunChunks envW image p),
      ¬ occursIn "GIT_PRIVATE_TOKEN" s) :
    ¬ occursIn "GIT_PRIVATE_TOKEN" (Docker.getLinuxCommand envL fs image p ov eb).2 ∧
    ¬ occursIn "GIT_PRIVATE_TOKEN" (Docker.getWindowsCommand envW image p) := by
  constructor
  · exact renderTemplate_not_occursIn _ _ (by decide) (noAdjacentVars_linux envL image p ov eb)
      (litGuard_of_subset (templateLits_sub_noToken envL image p ov eb htok) guard_noToken)
      hvarsL
  · exact renderTemplate_not_occursIn _ _ (by decide) (noAdjacentVars_windows envW image p)
      (litGuard_of_subset (templateLits_windows_sub envW image p htok) guard_windows)
      hvarsW

/-- Witness for `gitPrivateToken_absent_never_leaks`. -/
theorem gitPrivateToken_absent_never_leaks_witness :
    ¬ occursIn "GIT_PRIVATE_TOKEN"
        (Docker.getLinuxCommand "--env A=1" sampleFS "img" sampleParams "" false).2 ∧
    ¬ occursIn "GIT_PRIVATE_TOKEN"
        (Docker.getWindowsCommand "--env A=1" "img" sampleParams) :=
  gitPrivateToken_absent_never_leaks "--env A=1" "--env A=1" sampleFS "img" sampleParams ""
    false (by decide) (by decide) (by decide)

/-- Claim C6 (amended): selection of the SSH-related mounts of the Linux
command.  If both `sshAgent` and `sshPublicKeysDirectoryPath` are unset, no
SSH-related text (`SSH_AUTH_SOCK`, `/ssh-agent`, `known_hosts`, `.ssh`)
occurs, provided the interpolated inputs do not themselves contain it; if
`sshAgent` is set and the public-keys directory is not, the known-hosts
fallback mount appears and the public-keys mount text does not; if both are
set, the public-keys mount appears and the known-hosts text does not. -/
theorem linux_ssh_mount_selection (env : String) (fs : FS) (image : String)
    (p : DockerParameters) (ov : String) (eb : Bool) :
    (optionStringTruthy p.sshAgent = false →
      optionStringTruthy p.sshPublicKeysDirectoryPath = false →
      (∀ nd ∈ sshNeedles, ∀ s ∈ templateVars (linuxRunChunks env image p ov eb),
        ¬ occursIn nd s) →
      ∀ nd ∈ sshNeedles, ¬ occursIn nd (Docker.getLinuxCommand env fs image p ov eb).2) ∧
    (optionStringTruthy p.sshAgent = true →
      optionStringTruthy p.sshPublicKeysDirectoryPath = false →
      occursIn "known_hosts" (Docker.getLinuxCommand env fs image p ov eb).2 ∧
      ((∀ s ∈ templateVars (linuxRunChunks env image p ov eb), ¬ occursIn ":/root/.ssh:ro" s) →
        ¬ occursIn ":/root/.ssh:ro" (Docker.getLinuxCommand env fs image p ov eb).2)) ∧
    (optionStringTruthy p.sshAgent = true →
      optionStringTruthy p.sshPublicKeysDirectoryPath = true →
      occursIn ":/root/.ssh:ro" (Docker.getLinuxCommand env fs image p ov eb).2 ∧
      ((∀ s ∈ templateVars (linuxRunChunks env image p ov eb), ¬ occursIn "known_hosts" s) →
        ¬ occursIn "known_hosts" (Docker.getLinuxCommand env fs image p ov eb).2)) := by
  refine ⟨fun ha hb hv nd hnd => ?_, fun ha hb => ⟨?_, fun hv => ?_⟩, fun ha hb => ⟨?_, fun hv => ?_⟩⟩
  · exact renderTemplate_not_occursIn nd _
      ((by decide : ∀ x ∈ sshNeedles, x ≠ "") nd hnd)
      (noAdjacentVars_linux env image p ov eb)
      (litGuard_of_subset (templateLits_sub_noSSH env image p ov eb ha hb) (guard_noSSH nd hnd))
      (hv nd hnd)
  · have hmem : Chunk.lit
        "--volume /home/runner/.ssh/known_hosts:/root/.ssh/known_hosts:ro" ∈
        linuxRunChunks env image p ov eb := by
      unfold linuxRunChunks linuxMainChunks
      rw [knownHostsChunks_eq_of _ _ ha hb]
      simp
    exact occursIn_renderTemplate_of_mem hmem (by decide)
  · exact renderTemplate_not_occursIn _ _ (by decide)
      (noAdjacentVars_linux env image p ov eb)
      (litGuard_of_subset (templateLits_sub_knownHosts env image p ov eb hb) guard_knownHosts)
      hv
  · obtain ⟨d, -, hpk⟩ := publicKeysChunks_eq_of_truthy _ hb
    have hmem : Chunk.lit ":/root/.ssh:ro" ∈ linuxRunChunks env image p ov eb := by
      unfold linuxRunChunks linuxMainChunks
      rw [hpk]
      simp
    exact occursIn_renderTemplate_of_mem hmem (by decide)
  · exact renderTemplate_not_occursIn _ _ (by decide)
      (noAdjacentVars_linux env image p ov eb)
      (litGuard_of_subset (templateLits_sub_publicKeys env image p ov eb hb) guard_publicKeys)
      hv

/-- Witness for `linux_ssh_mount_selection`, one instance per case. -/
theorem linux_ssh_mount_selection_witness :
    (∀ nd ∈ sshNeedles, ¬ occursIn nd
      (Docker.getLinuxCommand "--env A=1" sampleFS "img" sampleParams "" false).2) ∧
    (occursIn "known_hosts"
      (Docker.getLinuxCommand "--env A=1" sampleFS "img"
        ⟨"/rt", "ga1", "/ws", "/af", "/tp", some "/agent", none, none, "/dwp", "2", "4g",
         "process"⟩ "" false).2 ∧
     ¬ occursIn ":/root/.ssh:ro"
      (Docker.getLinuxCommand "--env A=1" sampleFS "img"
        ⟨"/rt", "ga1", "/ws", "/af", "/tp", some "/agent", none, none, "/dwp", "2", "4g",
         "process"⟩ "" false).2) ∧
    (occursIn ":/root/.ssh:ro"
      (Docker.getLinuxCommand "--env A=1" sampleFS "img"
        ⟨"/rt", "ga1", "/ws", "/af", "/tp", some "/agent", some "/keys", none, "/dwp", "2",
         "4g", "process"⟩ "" false).2 ∧
     ¬ occursIn "known_hosts"
      (Docker.getLinuxCommand "--env A=1" sampleFS "img"
        ⟨"/rt", "ga1", "/ws", "/af", "/tp", some "/agent", some "/keys", none, "/dwp", "2",
         "4g", "process"⟩ "" false).2) := by
  refine ⟨?_, ?_, ?_⟩
  · exact (linux_ssh_mount_selection "--env A=1" sampleFS "img" sampleParams "" false).1
      (by decide) (by decide) (by decide)
  · have h := (linux_ssh_mount_selection "--env A=1" sampleFS "img"
      ⟨"/rt", "ga1", "/ws", "/af", "/tp", some "/agent", none, none, "/dwp", "2", "4g",
       "process"⟩ "" false).2.1 (by decide) (by decide)
    exact ⟨h.1, h.2 (by decide)⟩
  · have h := (linux_ssh_mount_selection "--env A=1" sampleFS "img"
      ⟨"/rt", "ga1", "/ws", "/af", "/tp", some "/agent", some "/keys", none, "/dwp", "2",
       "4g", "process"⟩ "" false).2.2 (by decide) (by decide)
    exact ⟨h.1, h.2 (by decide)⟩

/-- Counterexample to claim C6 as stated: with `sshAgent` unset but
`sshPublicKeysDirectoryPath` set, the Linux command does contain `.ssh` (the
public-keys mount `--volume <dir>:/root/.ssh:ro` is emitted), so "if
`sshAgent` is unset, no SSH-related mount appears" fails without also
requiring the public-keys directory to be unset. -/
theorem linux_ssh_unset_claim_counterexample :
    (⟨"/rt", "ga1", "/ws", "/af", "/tp", none, some "/keys", none, "/dwp", "2", "4g",
        "process"⟩ : DockerParameters).sshAgent = none ∧
    occursIn ".ssh"
      (Docker.getLinuxCommand "--env A=1" ⟨[], []⟩ "img"
        ⟨"/rt", "ga1", "/ws", "/af", "/tp", none, some "/keys", none, "/dwp", "2", "4g",
         "process"⟩ "" false).2 := by
  have hmem : Chunk.lit ":/root/.ssh:ro" ∈
      linuxRunChunks "--env A=1" "img"
        ⟨"/rt", "ga1", "/ws", "/af", "/tp", none, some "/keys", none, "/dwp", "2", "4g",
         "process"⟩ "" false := by
    decide
  exact ⟨rfl, occursIn_renderTemplate_of_mem hmem (by decide)⟩

/-- Rendered tail of the Linux template with the entrypoint override. -/
theorem renderTemplate_linuxTail_true (image ov : String) :
    renderTemplate (linuxTailChunks image ov true) =
      "            --entrypoint " ++ commandPrefixFor image ++ "             " ++ image ++
      "             -c             \"" ++ (if ov ≠ "" then ov else "/entrypoint.sh") ++ "\"" := by
  apply String.ext
  simp [linuxTailChunks, entrypointChunks, shellInvocationChunks, renderTemplate, Chunk.str,
    String.data_append, List.append_assoc]

/-- Rendered tail of the Linux template without the entrypoint override. -/
theorem renderTemplate_linuxTail_false (image ov : String) :
    renderTemplate (linuxTailChunks image ov false) =
      "                         " ++ image ++ "             " ++ commandPrefixFor image ++
      " -c             \"" ++ (if ov ≠ "" then ov else "/entrypoint.sh") ++ "\"" := by
  apply String.ext
  simp [linuxTailChunks, entrypointChunks, shellInvocationChunks, renderTemplate, Chunk.str,
    String.data_append, List.append_assoc]

/-- The Linux command splits into the rendered main part and tail. -/
theorem getLinuxCommand_split (env : String) (fs : FS) (image : String)
    (p : DockerParameters) (ov : String) (eb : Bool) :
    (Docker.getLinuxCommand env fs image p ov eb).2 =
      renderTemplate (linuxMainChunks env p) ++
        renderTemplate (linuxTailChunks image ov eb) := by
  show renderTemplate (linuxRunChunks env image p ov eb) = _
  rw [linuxRunChunks, renderTemplate_append]

/-- Claim C9: the in-container shell is `/bin/sh` for the minimal `alpine`
base image and `/bin/bash` otherwise; with the entrypoint-override flag the
command ends in `--entrypoint <shell> … <image> … -c "<command>"`, otherwise
in `… <image> … <shell> -c "<command>"` (and no `--entrypoint` text occurs,
provided the interpolated inputs do not contain it); the quoted in-container
command is the override text when non-empty and `/entrypoint.sh` otherwise. -/
theorem linux_entrypoint_selection (env : String) (fs : FS) (image : String)
    (p : DockerParameters) (ov : String) :
    commandPrefixFor "alpine" = "/bin/sh" ∧
    (image ≠ "alpine" → commandPrefixFor image = "/bin/bash") ∧
    (ov ≠ "" →
      (Docker.getLinuxCommand env fs image p ov true).2 =
        renderTemplate (linuxMainChunks env p) ++
          ("            --entrypoint " ++ commandPrefixFor image ++ "             " ++ image ++
           "             -c             \"" ++ ov ++ "\"") ∧
      (Docker.getLinuxCommand env fs image p ov false).2 =
        renderTemplate (linuxMainChunks env p) ++
          ("                         " ++ image ++ "             " ++ commandPrefixFor image ++
           " -c             \"" ++ ov ++ "\"")) ∧
    ((Docker.getLinuxCommand env fs image p "" true).2 =
        renderTemplate (linuxMainChunks env p) ++
          ("            --entrypoint " ++ commandPrefixFor image ++ "             " ++ image ++
           "             -c             \"" ++ "/entrypoint.sh" ++ "\"") ∧
     (Docker.getLinuxCommand env fs image p "" false).2 =
        renderTemplate (linuxMainChunks env p) ++
          ("                         " ++ image ++ "             " ++ commandPrefixFor image ++
           " -c             \"" ++ "/entrypoint.sh" ++ "\"")) ∧
    ((∀ s ∈ templateVars (linuxRunChunks env image p ov false), ¬ occursIn "--entrypoint" s) →
      ¬ occursIn "--entrypoint" (Docker.getLinuxCommand env fs image p ov false).2) := by
  refine ⟨rfl, fun h => by simp [commandPrefixFor, h], fun ho => ⟨?_, ?_⟩, ⟨?_, ?_⟩, fun hv => ?_⟩
  · rw [getLinuxCommand_split, renderTemplate_linuxTail_true, if_pos ho]
  · rw [getLinuxCommand_split, renderTemplate_linuxTail_false, if_pos ho]
  · rw [getLinuxCommand_split, renderTemplate_linuxTail_true]
    simp
  · rw [getLinuxCommand_split, renderTemplate_linuxTail_false]
    simp
  · exact renderTemplate_not_occursIn _ _ (by decide)
      (noAdjacentVars_linux env image p ov false)
      (litGuard_of_subset (templateLits_sub_noEntrypoint env image p ov) guard_noEntrypoint)
      hv

/-- Witness for `linux_entrypoint_selection`. -/
theorem linux_entrypoint_selection_witness :
    commandPrefixFor "img" = "/bin/bash" ∧
    (Docker.getLinuxCommand "--env A=1" sampleFS "img" sampleParams "abc" true).2 =
      renderTemplate (linuxMainChunks "--env A=1" sampleParams) ++
        ("            --entrypoint " ++ commandPrefixFor "img" ++ "             " ++ "img" ++
         "             -c             \"" ++ "abc" ++ "\"") ∧
    ¬ occursIn "--entrypoint"
      (Docker.getLinuxCommand "--env A=1" sampleFS "img" sampleParams "abc" false).2 := by
  obtain ⟨-, h2, h3, -, h5⟩ :=
    linux_entrypoint_selection "--env A=1" sampleFS "img" sampleParams "abc"
  exact ⟨h2 (by decide), (h3 (by decide)).1, h5 (by decide)⟩
